import Mathlib

/-!
# CNTK DataFrame deserializers: ParquetReader and DataFrameConfigHelper

A shallow embedding of

* `Source/Readers/DataFrameDeserializers/Parquet/ParquetReader.cpp`
* `Source/Readers/DataFrameDeserializers/DataFrameConfigHelper.cpp`

and the properties of the row-group batch reader and of the configuration
helper that follow from the code.

Conventions of the embedding.

* A member function becomes a function of the object (`self`); a member
  function that assigns a member returns the new object.
* A C++ exception and an execution with undefined behaviour (a call through
  a null pointer, a cast to a class the object is not of, an access past a
  buffer, an overflow of an `int`) are an `Except.error`.
* `assert` is checked or not according to the build: a parameter `NDEBUG`
  tells whether the macro is defined. A failed `assert` is an `Except.error`.
* Lines written to `std::cout` and the calls made on the typed column
  readers are recorded next to the result of `ReadBatch`.
* The parquet and arrow libraries are not part of the sources; what this
  code needs of them is modelled as data (what a reader call hands back)
  and described at each definition.
-/

set_option autoImplicit false

namespace CNTK
namespace hdfs

/-! ## The parquet / arrow surface used by ParquetReader.cpp -/

/-- One byte, as its value. -/
abbrev Byte := Nat

/-- A C++ `float`, kept as its 32-bit pattern. The reader only copies such values. -/
structure FloatValue where
  bits : Nat
  deriving DecidableEq, Repr

/-- A C++ `double`, kept as its 64-bit pattern. The reader only copies such values. -/
structure DoubleValue where
  bits : Nat
  deriving DecidableEq, Repr

/-- The enumeration `parquet::Type::type`. -/
inductive PhysicalType where
  | BOOLEAN
  | INT32
  | INT64
  | INT96
  | FLOAT
  | DOUBLE
  | BYTE_ARRAY
  | FIXED_LEN_BYTE_ARRAY
  deriving DecidableEq, Repr

/-- The part of `parquet::ColumnDescriptor` the reader looks at. -/
structure ColumnDescriptor where
  name : String
  physical_type : PhysicalType
  type_length : Nat
  deriving DecidableEq, Repr

/-- The leaf columns of `parquet::SchemaDescriptor`, in schema order. -/
abbrev SchemaDescriptor := List ColumnDescriptor

/-- Ways in which a call on the reader ends without a value. -/
inductive ReadError where
  /-- a member call through a null `m_metadata` or a null descriptor -/
  | nullPointer
  /-- a row-group or column index outside the file -/
  | indexError
  /-- the column reader is not of the type it is `static_cast` to -/
  | badCast
  /-- an `assert` on `rowsRead` or `valuesRead` failed -/
  | assertFailed
  /-- a write past the one slot `flbArray`, or a read past the array `results` -/
  | bufferOverrun
  /-- the `int` counter of a builder loop is incremented past the largest `int` -/
  | intOverflow
  deriving DecidableEq, Repr

/-- What one call
`TypedColumnReader::ReadBatch(batch_size, nullptr, nullptr, values, &values_read)`
hands back: its `int64_t` return value, the count stored in `values_read`,
and the contents of the `values` buffer after the call, by slot. -/
structure BatchRead (α : Type) where
  rowsRead : Int
  valuesRead : Int
  values : Nat → α

/-- A `parquet::ColumnReader`, by the typed reader class it really is. A
typed reader is given by what its `ReadBatch` answers to a batch size. For
the fixed-length byte array reader the values are the records its
`FixedLenByteArray` slots point at. -/
inductive ColumnReader where
  | FloatReader (ReadBatch : Int → BatchRead FloatValue)
  | DoubleReader (ReadBatch : Int → BatchRead DoubleValue)
  | FixedLenByteArrayReader (ReadBatch : Int → BatchRead (List Byte))
  | OtherReader

/-- One row group of a file: its declared row count (`num_rows()`, an
`int64_t` that counts rows) and a reader for each of its column chunks. -/
structure RowGroup where
  num_rows : Nat
  columns : List ColumnReader

/-- The content of a parquet file as the library exposes it. -/
structure ParquetFile where
  schema : SchemaDescriptor
  row_groups : List RowGroup

/-- The `arrow::io::RandomAccessFile` handed to the reader, with the number
of times its footer has been read so far. -/
structure RandomAccessFile where
  content : ParquetFile
  footerReads : Nat

/-- The row-group entry of the footer: `parquet::RowGroupMetaData`. -/
structure RowGroupMetaData where
  num_rows : Nat
  deriving DecidableEq, Repr

/-- The parsed footer: `parquet::FileMetaData`. -/
structure FileMetaData where
  schema : SchemaDescriptor
  row_groups : List RowGroupMetaData
  deriving DecidableEq, Repr

/-- The call `FileMetaData::num_row_groups()`. -/
def FileMetaData.num_row_groups (md : FileMetaData) : Nat :=
  md.row_groups.length

/-- The call `FileMetaData::num_columns()`: the number of leaf columns of the schema. -/
def FileMetaData.num_columns (md : FileMetaData) : Nat :=
  md.schema.length

/-- Modelled from the spec: `parquet::FileMetaData::RowGroup(i)` belongs to the
parquet library and is not among the sources. A row-group index outside
`0 <= i < num_row_groups()` fails with the index error; no check of the index
is made in ParquetReader.cpp itself. -/
def FileMetaData.RowGroup (md : FileMetaData) (i : Int) : Except ReadError RowGroupMetaData :=
  if i < 0 then .error .indexError
  else
    match md.row_groups[i.toNat]? with
    | some rg => .ok rg
    | none => .error .indexError

/-- A `parquet::RowGroupReader`: gives a column reader by column index. -/
structure RowGroupReader where
  columns : List ColumnReader

/-- The call `RowGroupReader::Column(i)` of the parquet library: the reader
of column chunk `i`, and a failure for an index the row group has no chunk for. -/
def RowGroupReader.Column (rgr : RowGroupReader) (i : Nat) : Except ReadError ColumnReader :=
  match rgr.columns[i]? with
  | some cr => .ok cr
  | none => .error .indexError

/-- A `parquet::ParquetFileReader`: it owns the source and the footer parsed
from it when it was opened. -/
structure ParquetFileReader where
  source : RandomAccessFile
  file_metadata : FileMetaData

/-- What parsing the footer of a file yields. -/
def ParseMetaData (file : ParquetFile) : FileMetaData :=
  { schema := file.schema
    row_groups := file.row_groups.map (fun rg => { num_rows := rg.num_rows }) }

/-- Modelled from the spec: `parquet::ParquetFileReader::Open(file)` belongs
to the parquet library and is not among the sources. It reads and parses the
footer, once, and keeps the result. A source whose footer cannot be read
makes `Open` throw and no reader comes to exist; the embedding starts from a
readable source. -/
def ParquetFileReader.Open (file : RandomAccessFile) : ParquetFileReader :=
  { source := { file with footerReads := file.footerReads + 1 }
    file_metadata := ParseMetaData file.content }

/-- Modelled from the spec: `ParquetFileReader::metadata()` belongs to the
parquet library and is not among the sources. It hands out the footer kept
from `Open` and reads nothing. -/
def ParquetFileReader.metadata (pfr : ParquetFileReader) : FileMetaData :=
  pfr.file_metadata

/-- Modelled from the spec: `ParquetFileReader::RowGroup(i)` belongs to the
parquet library and is not among the sources. It has the bounds of
`FileMetaData.RowGroup`. -/
def ParquetFileReader.RowGroup (pfr : ParquetFileReader) (i : Int) : Except ReadError RowGroupReader :=
  if i < 0 then .error .indexError
  else
    match pfr.source.content.row_groups[i.toNat]? with
    | some rg => .ok { columns := rg.columns }
    | none => .error .indexError

/-- The arrow data types the schema translation produces. -/
inductive ArrowType where
  | float32
  | float64
  | fixed_size_binary (byte_width : Nat)
  | unsupported
  deriving DecidableEq, Repr

/-- A field of an `arrow::Schema`. -/
structure ArrowField where
  name : String
  type : ArrowType
  deriving DecidableEq, Repr

/-- An `arrow::Schema`. -/
abbrev ArrowSchema := List ArrowField

/-- Modelled from the spec: `parquet::arrow::FromParquetSchema` belongs to the
parquet library and is not among the sources. Each column descriptor is
mapped by a fixed table, Float32 to Float32, Float64 to Float64,
FixedLenByteArray(width) to FixedLenByteArray(width), any other physical type
to a placeholder, and the translation never fails (`none` stands for a
status that is not ok). -/
def FromParquetSchema (parquetSchema : SchemaDescriptor) : Option ArrowSchema :=
  some (parquetSchema.map (fun d =>
    { name := d.name
      type :=
        match d.physical_type with
        | .FLOAT => .float32
        | .DOUBLE => .float64
        | .FIXED_LEN_BYTE_ARRAY => .fixed_size_binary d.type_length
        | _ => .unsupported }))

/-- An `arrow::Array` as one of the three builders of `ReadBatch` finishes it. -/
inductive ArrowArray where
  | FloatArray (values : List FloatValue)
  | DoubleArray (values : List DoubleValue)
  | FixedSizeBinaryArray (byte_width : Nat) (values : List (List Byte))
  deriving DecidableEq, Repr

/-- The number of elements of an array. -/
def ArrowArray.length : ArrowArray → Nat
  | .FloatArray values => values.length
  | .DoubleArray values => values.length
  | .FixedSizeBinaryArray _ values => values.length

/-- An `arrow::RecordBatch(schema, num_rows, columns)`. -/
structure RecordBatch where
  schema : Option ArrowSchema
  num_rows : Nat
  columns : List ArrowArray
  deriving DecidableEq, Repr

/-! ## ParquetReader -/

/-- The members of `ParquetReader`: `m_pfr`, and `m_metadata`, a shared
pointer that is null until `GetMetadata` assigns it. -/
structure ParquetReader where
  m_pfr : ParquetFileReader
  m_metadata : Option FileMetaData

/-- The constructor `ParquetReader::ParquetReader(filePtr)`. -/
def ParquetReader.new (filePtr : RandomAccessFile) : ParquetReader :=
  { m_pfr := ParquetFileReader.Open filePtr
    m_metadata := none }

/-- The member `ParquetReader::GetMetadata`: assigns `m_metadata` from the
file reader and returns it. -/
def ParquetReader.GetMetadata (self : ParquetReader) : FileMetaData × ParquetReader :=
  let self1 := { self with m_metadata := some self.m_pfr.metadata }
  (self.m_pfr.metadata, self1)

/-- The member `ParquetReader::GetNumRowGroups`. -/
def ParquetReader.GetNumRowGroups (self : ParquetReader) : Except ReadError Nat :=
  match self.m_metadata with
  | none => .error .nullPointer
  | some md => .ok md.num_row_groups

/-- The member `ParquetReader::GetNumCols`. -/
def ParquetReader.GetNumCols (self : ParquetReader) : Except ReadError Nat :=
  match self.m_metadata with
  | none => .error .nullPointer
  | some md => .ok md.num_columns

/-- The member `ParquetReader::GetSchema`. -/
def ParquetReader.GetSchema (self : ParquetReader) : Except ReadError SchemaDescriptor :=
  match self.m_metadata with
  | none => .error .nullPointer
  | some md => .ok md.schema

/-- The member `ParquetReader::GetRowGroupMetaData`. -/
def ParquetReader.GetRowGroupMetaData (self : ParquetReader) (rowGroupIndex : Int) :
    Except ReadError RowGroupMetaData :=
  match self.m_metadata with
  | none => .error .nullPointer
  | some md => md.RowGroup rowGroupIndex

/-- The member `ParquetReader::GetColumnDescriptor`: a null schema is
reported on `std::cout` and answered by a null descriptor. Returns the
descriptor and the lines printed. -/
def ParquetReader.GetColumnDescriptor (schema : Option SchemaDescriptor) (colIndex : Nat) :
    Option ColumnDescriptor × List String :=
  match schema with
  | none => (none, ["The SchemaDescriptor has not been instantiated."])
  | some s => (s[colIndex]?, [])

/-- The member `ParquetReader::ParquetSchemaToArrowSchema`: the out-parameter
`arrowSchema` stays null when the conversion does not succeed. Returns the
out-parameter and the lines printed. -/
def ParquetReader.ParquetSchemaToArrowSchema (parquetSchema : SchemaDescriptor) :
    Option ArrowSchema × List String :=
  match FromParquetSchema parquetSchema with
  | none => (none, ["Could not convert from Parquet schema to Arrow schema."])
  | some s => (some s, [])

/-- Narrowing of an `int64_t` to `int`, as in `int rowsRead = reader->ReadBatch(...)`. -/
def toInt32 (x : Int) : Int :=
  (x + 2 ^ 31) % 2 ^ 32 - 2 ^ 31

/-- The builder loop of `ReadBatch`:
`builder->Reserve(n); for (int i = 0; i < n; i++) builder->Append(results[i]); builder->Finish(&array)`,
for a row count `n` the `int` counter can reach. -/
def buildArray {α : Type} (numRows : Nat) (results : Nat → α) : List α :=
  (List.range numRows).foldl (fun built i => built ++ [results i]) []

/-- The `width` bytes found in memory from `addr` on: what
`FixedSizeBinaryBuilder::Append(const uint8_t*)` copies. -/
def bytesAt (mem : Nat → Byte) (addr width : Nat) : List Byte :=
  (List.range width).map (fun k => mem (addr + k))

/-- The state of the column loop of `ReadBatch`: the vector `columns`, the
columns on which a typed reader was asked for a batch, the lines printed,
and the failure that ended the loop, if any. -/
structure LoopState where
  columns : List ArrowArray
  reads : List Nat
  out : List String
  failure : Option ReadError

/-- The text the `default` case of the switch prints. -/
def unsupportedNotice : String :=
  "Support for other file types will be added in the future."

/-- The body of the column loop of `ReadBatch` (lines 86 to 197) for column
`col`, on the loop state `st`.

`NDEBUG` tells whether the file is compiled with the macro `NDEBUG`
defined: then `assert` expands to nothing and the counts are not compared.

In each case the builder loop counts with an `int`; a row count the `int`
cannot reach makes the increment overflow.

`numBytesForFixedArray` is declared outside the sources and is a parameter.

The `FIXED_LEN_BYTE_ARRAY` case declares `uint8_t results[numRowsInRowGroup]`
and the single `FixedLenByteArray flbArray(results)`, and hands the reader
`&flbArray` with a batch size of `numRowsInRowGroup`. The reader stores one
`FixedLenByteArray` per value it reads, from `&flbArray` on: a second value
is written past `flbArray`. The reader never writes `results`; `stack k` is
the byte that stands at `&results[k]`. The builder loop copies
`numBytesForFixedArray` bytes from `&results[i]` for each row `i`; with a
row and a width of two bytes or more, the last copy reads past `results`. -/
def ReadBatchColumn (NDEBUG : Bool) (numBytesForFixedArray : Nat) (stack : Nat → Byte)
    (schema : SchemaDescriptor) (rgr : RowGroupReader) (numRowsInRowGroup : Nat)
    (st : LoopState) (col : Nat) : LoopState :=
  match st.failure with
  | some _ => st
  | none =>
    match rgr.Column col with
    | .error e => { st with failure := some e }
    | .ok cr =>
      match ParquetReader.GetColumnDescriptor (some schema) col with
      | (none, printed) => { st with out := st.out ++ printed, failure := some .nullPointer }
      | (some colDescriptor, printed) =>
        let st := { st with out := st.out ++ printed }
        match colDescriptor.physical_type with
        | .FLOAT =>
          match cr with
          | .FloatReader floatReader =>
            let r := floatReader numRowsInRowGroup
            let st := { st with reads := st.reads ++ [col] }
            let rowsRead := toInt32 r.rowsRead
            if NDEBUG = false ∧ rowsRead ≠ numRowsInRowGroup then
              { st with failure := some .assertFailed }
            else if NDEBUG = false ∧ r.valuesRead ≠ numRowsInRowGroup then
              { st with failure := some .assertFailed }
            else if 2 ^ 31 ≤ numRowsInRowGroup then { st with failure := some .intOverflow }
            else
              { st with columns := st.columns ++ [.FloatArray (buildArray numRowsInRowGroup r.values)] }
          | _ => { st with failure := some .badCast }
        | .DOUBLE =>
          match cr with
          | .DoubleReader doubleReader =>
            let r := doubleReader numRowsInRowGroup
            let st := { st with reads := st.reads ++ [col] }
            let rowsRead := toInt32 r.rowsRead
            if NDEBUG = false ∧ rowsRead ≠ numRowsInRowGroup then
              { st with failure := some .assertFailed }
            else if NDEBUG = false ∧ r.valuesRead ≠ numRowsInRowGroup then
              { st with failure := some .assertFailed }
            else if 2 ^ 31 ≤ numRowsInRowGroup then { st with failure := some .intOverflow }
            else
              { st with columns := st.columns ++ [.DoubleArray (buildArray numRowsInRowGroup r.values)] }
          | _ => { st with failure := some .badCast }
        | .FIXED_LEN_BYTE_ARRAY =>
          match cr with
          | .FixedLenByteArrayReader fByteReader =>
            let r := fByteReader numRowsInRowGroup
            let st := { st with reads := st.reads ++ [col] }
            if 1 < r.valuesRead then { st with failure := some .bufferOverrun }
            else
              let rowsRead := toInt32 r.rowsRead
              if NDEBUG = false ∧ rowsRead ≠ numRowsInRowGroup then
                { st with failure := some .assertFailed }
              else if NDEBUG = false ∧ r.valuesRead ≠ numRowsInRowGroup then
                { st with failure := some .assertFailed }
              else if 2 ^ 31 ≤ numRowsInRowGroup then { st with failure := some .intOverflow }
              else if 0 < numRowsInRowGroup ∧ 1 < numBytesForFixedArray then
                { st with failure := some .bufferOverrun }
              else
                { st with
                  columns := st.columns ++
                    [.FixedSizeBinaryArray numBytesForFixedArray
                      (buildArray numRowsInRowGroup (fun i => bytesAt stack i numBytesForFixedArray))] }
          | _ => { st with failure := some .badCast }
        | _ => { st with out := st.out ++ [unsupportedNotice] }

/-- What a call of `ReadBatch` did: its result, the columns on which a typed
reader was asked for a batch, in order, and the lines printed. -/
structure ReadBatchRun where
  result : Except ReadError RecordBatch
  reads : List Nat
  out : List String

/-- The member `ParquetReader::ReadBatch(rowGroupIndex)`.

`NDEBUG` and `numBytesForFixedArray` are as in `ReadBatchColumn`, and
`stack col` is the memory that stands at `results` in the
`FIXED_LEN_BYTE_ARRAY` case of column `col`. -/
def ParquetReader.ReadBatch (NDEBUG : Bool) (numBytesForFixedArray : Nat)
    (stack : Nat → Nat → Byte) (self : ParquetReader) (rowGroupIndex : Int) : ReadBatchRun :=
  match self.GetNumCols with
  | .error e => { result := .error e, reads := [], out := [] }
  | .ok numCols =>
    match self.GetSchema with
    | .error e => { result := .error e, reads := [], out := [] }
    | .ok schema =>
      match ParquetReader.ParquetSchemaToArrowSchema schema with
      | (arrowSchema, printed) =>
        match self.GetRowGroupMetaData rowGroupIndex with
        | .error e => { result := .error e, reads := [], out := printed }
        | .ok rowGroupMetaData =>
          match self.m_pfr.RowGroup rowGroupIndex with
          | .error e => { result := .error e, reads := [], out := printed }
          | .ok rgr =>
            let numRowsInRowGroup := rowGroupMetaData.num_rows
            let st := (List.range numCols).foldl
              (fun st col =>
                ReadBatchColumn NDEBUG numBytesForFixedArray (stack col) schema rgr
                  numRowsInRowGroup st col)
              { columns := [], reads := [], out := printed, failure := none }
            match st.failure with
            | some e => { result := .error e, reads := st.reads, out := st.out }
            | none =>
              { result := .ok { schema := arrowSchema, num_rows := numRowsInRowGroup, columns := st.columns }
                reads := st.reads
                out := st.out }

/-! ## Vocabulary of the properties -/

/-- The reader as a caller holds it once the file is open and `GetMetadata`
has been called: the state in which the accessors and `ReadBatch` have a
non-null `m_metadata` to go through. -/
def ParquetReader.loaded (filePtr : RandomAccessFile) : ParquetReader :=
  (ParquetReader.new filePtr).GetMetadata.2

/-- The physical types `ReadBatch` has a case for. -/
def Supported : PhysicalType → Bool
  | .FLOAT => true
  | .DOUBLE => true
  | .FIXED_LEN_BYTE_ARRAY => true
  | _ => false

/-- The `int64_t` a column reader returns from `ReadBatch(batch_size, ...)`:
the number of rows it decoded. A reader of another type is never asked. -/
def ColumnReader.rowsRead (cr : ColumnReader) (batch_size : Int) : Int :=
  match cr with
  | .FloatReader rd => (rd batch_size).rowsRead
  | .DoubleReader rd => (rd batch_size).rowsRead
  | .FixedLenByteArrayReader rd => (rd batch_size).rowsRead
  | .OtherReader => batch_size

/-- The count a column reader stores in `values_read`. -/
def ColumnReader.valuesRead (cr : ColumnReader) (batch_size : Int) : Int :=
  match cr with
  | .FloatReader rd => (rd batch_size).valuesRead
  | .DoubleReader rd => (rd batch_size).valuesRead
  | .FixedLenByteArrayReader rd => (rd batch_size).valuesRead
  | .OtherReader => batch_size

/-- The library makes the reader of a column from the column descriptor:
the typed reader class is the one of the physical type. -/
def wellTyped (d : ColumnDescriptor) (cr : ColumnReader) : Bool :=
  match d.physical_type, cr with
  | .FLOAT, .FloatReader _ => true
  | .FLOAT, _ => false
  | .DOUBLE, .DoubleReader _ => true
  | .DOUBLE, _ => false
  | .FIXED_LEN_BYTE_ARRAY, .FixedLenByteArrayReader _ => true
  | .FIXED_LEN_BYTE_ARRAY, _ => false
  | _, _ => true

/-- The two asserts of a case of the switch, as the code evaluates them:
`rowsRead`, narrowed to `int`, and `valuesRead` both equal the row count. -/
def countsPass (numRows : Nat) (cr : ColumnReader) : Bool :=
  decide (toInt32 (cr.rowsRead numRows) = numRows) && decide (cr.valuesRead numRows = numRows)

/-- The fixed-length byte array case stays inside its two buffers: the
reader stores at most one slot at `&flbArray`, and the builder loop copies
no byte from past `results`. -/
def withinBuffers (numBytesForFixedArray numRows : Nat) (cr : ColumnReader) : Bool :=
  decide (cr.valuesRead numRows ≤ 1) &&
    (decide (numRows = 0) || decide (numBytesForFixedArray ≤ 1))

/-- Column `col` goes through the loop body without a failure. It has a
reader of the class of its descriptor and, when its type is one of the three
with a case: both asserts hold, unless they are compiled out; the `int`
counter reaches the row count; and a fixed-length byte array column stays
inside its buffers. -/
def columnPasses (NDEBUG : Bool) (numBytesForFixedArray : Nat) (schema : SchemaDescriptor)
    (readers : List ColumnReader) (numRows : Nat) (col : Nat) : Bool :=
  match schema[col]?, readers[col]? with
  | some d, some cr =>
    wellTyped d cr &&
      (!Supported d.physical_type ||
        ((NDEBUG || countsPass numRows cr) && decide (numRows < 2 ^ 31) &&
          (!decide (d.physical_type = .FIXED_LEN_BYTE_ARRAY) ||
            withinBuffers numBytesForFixedArray numRows cr)))
  | _, _ => false

/-- Every column of the row group goes through the loop body without a failure. -/
def AllColumnsPass (NDEBUG : Bool) (numBytesForFixedArray : Nat) (schema : SchemaDescriptor)
    (rg : RowGroup) : Prop :=
  ∀ col, col < schema.length →
    columnPasses NDEBUG numBytesForFixedArray schema rg.columns rg.num_rows col = true

instance (NDEBUG : Bool) (numBytesForFixedArray : Nat) (schema : SchemaDescriptor) (rg : RowGroup) :
    Decidable (AllColumnsPass NDEBUG numBytesForFixedArray schema rg) := by
  unfold AllColumnsPass
  infer_instance

/-- The array the loop body appends for a column that passes, as the code
computes it. -/
def columnArray (numBytesForFixedArray : Nat) (stack : Nat → Byte) (numRows : Nat)
    (d : ColumnDescriptor) (cr : ColumnReader) : Option ArrowArray :=
  match d.physical_type, cr with
  | .FLOAT, .FloatReader rd => some (.FloatArray ((List.range numRows).map (rd numRows).values))
  | .DOUBLE, .DoubleReader rd => some (.DoubleArray ((List.range numRows).map (rd numRows).values))
  | .FIXED_LEN_BYTE_ARRAY, .FixedLenByteArrayReader _ =>
    some (.FixedSizeBinaryArray numBytesForFixedArray
      ((List.range numRows).map (fun i => bytesAt stack i numBytesForFixedArray)))
  | _, _ => none

/-- The array the loop body appends for column `col`, if the column has one. -/
def arrayAt (numBytesForFixedArray : Nat) (stack : Nat → Nat → Byte) (schema : SchemaDescriptor)
    (readers : List ColumnReader) (numRows : Nat) (col : Nat) : Option ArrowArray :=
  match schema[col]?, readers[col]? with
  | some d, some cr => columnArray numBytesForFixedArray (stack col) numRows d cr
  | _, _ => none

/-- The array `a` is the one of a column with descriptor `d` and reader
`cr`: for a Float32 or Float64 column, the array of the values the reader
handed back, slots `0` to `numRows - 1` in order; for a FixedLenByteArray
column, a fixed-size binary array of `numRows` records, of which nothing
more is said here. -/
def BelongsTo (numBytesForFixedArray numRows : Nat) (d : ColumnDescriptor) (cr : ColumnReader)
    (a : ArrowArray) : Prop :=
  match d.physical_type, cr with
  | .FLOAT, .FloatReader rd => a = .FloatArray ((List.range numRows).map (rd numRows).values)
  | .DOUBLE, .DoubleReader rd => a = .DoubleArray ((List.range numRows).map (rd numRows).values)
  | .FIXED_LEN_BYTE_ARRAY, .FixedLenByteArrayReader _ =>
    ∃ records, a = .FixedSizeBinaryArray numBytesForFixedArray records ∧ records.length = numRows
  | _, _ => False

/-- The column loop of `ReadBatch` over the columns `cols`, from the loop state `st`. -/
def columnLoop (NDEBUG : Bool) (numBytesForFixedArray : Nat) (stack : Nat → Nat → Byte)
    (schema : SchemaDescriptor) (rgr : RowGroupReader) (numRows : Nat) (cols : List Nat)
    (st : LoopState) : LoopState :=
  cols.foldl
    (fun st col =>
      ReadBatchColumn NDEBUG numBytesForFixedArray (stack col) schema rgr numRows st col) st

/-- Whether column `col` of the schema has a type with a case. -/
def supportedAt (schema : SchemaDescriptor) (col : Nat) : Bool :=
  match schema[col]? with
  | some d => Supported d.physical_type
  | none => false

/-- The run of `ReadBatch` that ends the column loop in the state `st`: the
failure of the loop, or the batch of the arrays collected. -/
def runOfLoop (arrowSchema : Option ArrowSchema) (numRows : Nat) (st : LoopState) : ReadBatchRun :=
  match st.failure with
  | some e => { result := .error e, reads := st.reads, out := st.out }
  | none =>
    { result := .ok { schema := arrowSchema, num_rows := numRows, columns := st.columns }
      reads := st.reads
      out := st.out }

/-- The number of columns before `col` that have a type with a case: the
position of the array of column `col` in the batch. -/
def positionOf (schema : SchemaDescriptor) (col : Nat) : Nat :=
  ((List.range col).filter (supportedAt schema)).length

/-! ## Example files -/

/-- A typed column reader over a single data page: asked for `batch_size`
rows it decodes as many as the page holds, at most `batch_size`, into the
front of the buffer, whose other slots keep `fill`. -/
def pageReader {α : Type} (page : List α) (fill : α) (batch_size : Int) : BatchRead α :=
  let k : Int := max 0 (min batch_size page.length)
  { rowsRead := k
    valuesRead := k
    values := fun i => if (i : Int) < k then page.getD i fill else fill }

/-- The float values 1.0, 2.5, -3.0, 0.0, 42.25. -/
def fiveFloats : List FloatValue :=
  [⟨0x3F800000⟩, ⟨0x40200000⟩, ⟨0xC0400000⟩, ⟨0x00000000⟩, ⟨0x42290000⟩]

/-- The double values 1.0, 2.5, -3.0, 0.0, 42.25. -/
def fiveDoubles : List DoubleValue :=
  [⟨0x3FF0000000000000⟩, ⟨0x4004000000000000⟩, ⟨0xC008000000000000⟩, ⟨0x0000000000000000⟩,
    ⟨0x4045200000000000⟩]

/-- A file of one row group of five rows: a Float32 column and a Float64 column. -/
def floatFile : RandomAccessFile :=
  { content :=
      { schema := [⟨"a", .FLOAT, 0⟩, ⟨"b", .DOUBLE, 0⟩]
        row_groups :=
          [{ num_rows := 5
             columns := [.FloatReader (pageReader fiveFloats ⟨0⟩),
               .DoubleReader (pageReader fiveDoubles ⟨0⟩)] }] }
    footerReads := 0 }

/-- A file of one row group of two rows: an Int32 column, then a Float32 column. -/
def mixedFile : RandomAccessFile :=
  { content :=
      { schema := [⟨"id", .INT32, 0⟩, ⟨"x", .FLOAT, 0⟩]
        row_groups :=
          [{ num_rows := 2
             columns := [.OtherReader, .FloatReader (pageReader [⟨0x3F800000⟩, ⟨0x40200000⟩] ⟨0⟩)] }] }
    footerReads := 0 }

/-- The three records 01 02 03 04, AA BB CC DD, 00 00 00 00. -/
def threeRecords : List (List Byte) :=
  [[0x01, 0x02, 0x03, 0x04], [0xAA, 0xBB, 0xCC, 0xDD], [0x00, 0x00, 0x00, 0x00]]

/-- A file of one row group of three rows: a FixedLenByteArray column of width 4. -/
def recordFile : RandomAccessFile :=
  { content :=
      { schema := [⟨"key", .FIXED_LEN_BYTE_ARRAY, 4⟩]
        row_groups :=
          [{ num_rows := 3
             columns := [.FixedLenByteArrayReader (pageReader threeRecords [])] }] }
    footerReads := 0 }

/-- A file whose row group declares three rows while the page of its Float32
column holds two. -/
def shortFile : RandomAccessFile :=
  { content :=
      { schema := [⟨"x", .FLOAT, 0⟩]
        row_groups :=
          [{ num_rows := 3
             columns := [.FloatReader (pageReader [⟨0x3F800000⟩, ⟨0x40200000⟩] ⟨0⟩)] }] }
    footerReads := 0 }

/-- A Float32 reader that reports `2 ^ 32 + 3` rows and 3 values, whatever
it is asked for, and leaves `fill` in the buffer. -/
def wideReader (fill : FloatValue) (_batch_size : Int) : BatchRead FloatValue :=
  { rowsRead := 2 ^ 32 + 3
    valuesRead := 3
    values := fun _ => fill }

/-- A file whose row group declares three rows and whose Float32 reader is `wideReader`. -/
def wideFile : RandomAccessFile :=
  { content :=
      { schema := [⟨"x", .FLOAT, 0⟩]
        row_groups := [{ num_rows := 3, columns := [.FloatReader (wideReader ⟨0⟩)] }] }
    footerReads := 0 }

/-- A memory of zero bytes. -/
def zeroStack : Nat → Nat → Byte :=
  fun _ _ => 0

end hdfs

namespace DF

/-! ## DataFrameConfigHelper -/

/-- The exceptions the configuration helper can end in, by their C++ class
and message. -/
inductive ConfigError where
  | invalid_argument (what : String)
  | out_of_range (what : String)
  | runtime_error (what : String)
  deriving DecidableEq, Repr

/-- Modelled from the spec: `ConfigValue` (Config.h) is not among the
sources. A value of a configuration is a text, and read as
`ConfigParameters` it is the dictionary nested in it. -/
inductive ConfigValue where
  | mk (text : String) (params : List (String × ConfigValue))

/-- The text of a value. -/
def ConfigValue.text : ConfigValue → String
  | .mk text _ => text

/-- The conversion of a value to `ConfigParameters`. -/
def ConfigValue.params : ConfigValue → List (String × ConfigValue)
  | .mk _ params => params

/-- Modelled from the spec: `ConfigParameters` (Config.h) is not among the
sources. A configuration is a dictionary from keys to values. -/
abbrev ConfigParameters := List (String × ConfigValue)

/-- Modelled from the spec: `ConfigParameters::Exists(key)` (Config.h) is not
among the sources. It tells whether the key is present in the dictionary. -/
def ConfigParameters.Exists (config : ConfigParameters) (key : String) : Bool :=
  (config.lookup key).isSome

/-- Modelled from the spec: `ConfigParameters::operator()(key)` (Config.h) is
not among the sources. It returns the value of the key, and a required key
that is missing is an error. -/
def ConfigParameters.get (config : ConfigParameters) (key : String) : Except ConfigError ConfigValue :=
  match config.lookup key with
  | some v => .ok v
  | none => .error (.runtime_error "required parameter missing")

/-- Modelled from the spec: `InvalidArgument` (Basics.h) is not among the
sources. It does not return: it throws `std::invalid_argument` with the
message. -/
def InvalidArgument {α : Type} (message : String) : Except ConfigError α :=
  .error (.invalid_argument message)

/-- The white space `std::stoi` skips. -/
def isSpace (c : Char) : Bool :=
  c.toNat == 32 || (9 ≤ c.toNat && c.toNat ≤ 13)

/-- The call `std::stoi(str)` of the C++ standard library, in base 10:
leading white space is skipped, then a sign, if any, and the longest run of
decimal digits are read. It throws `std::invalid_argument` when there is no
digit and `std::out_of_range` when the value is outside the range of `int`. -/
def stoi (str : String) : Except ConfigError Int :=
  let afterSpace := str.toList.dropWhile isSpace
  let negative := afterSpace.head? == some '-'
  let afterSign :=
    match afterSpace with
    | '-' :: rest => rest
    | '+' :: rest => rest
    | _ => afterSpace
  let digits := afterSign.takeWhile Char.isDigit
  if digits.isEmpty then .error (.invalid_argument "stoi")
  else
    let magnitude : Int := digits.foldl (fun acc c => acc * 10 + ((c.toNat - 48 : Nat) : Int)) 0
    let value : Int := if negative then -magnitude else magnitude
    if value < -(2 ^ 31) ∨ 2 ^ 31 - 1 < value then .error (.out_of_range "stoi")
    else .ok value

/-- The enumerator of `StorageType` the helper assigns. -/
inductive StorageType where
  | dense
  deriving DecidableEq, Repr

/-- The enumerator of `FileFormat` the helper assigns. -/
inductive FileFormat where
  | Parquet
  deriving DecidableEq, Repr

/-- The enumerator of `DataSource` the helper assigns. -/
inductive DataSource where
  | HDFS
  deriving DecidableEq, Repr

/-- The enumeration `InputType`. -/
inductive InputType where
  | Features
  | Labels
  deriving DecidableEq, Repr

/-- The members of `DataFrameConfigHelper`. The dimensions are `size_t`. -/
structure DataFrameConfigHelper where
  m_config : ConfigParameters
  m_source : DataSource
  m_host : String
  m_filePath : String
  m_port : Int
  m_format : FileFormat
  m_labelDim : Nat
  m_labelElemType : StorageType
  m_featureDim : Nat
  m_featureElemType : StorageType

/-- The conversion of an `int` to `size_t`. -/
def toSizeT (x : Int) : Nat :=
  (x % 2 ^ 64).toNat

/-- The member `DataFrameConfigHelper::GetFeatureConfigs`, called on the
members `m_featureDim` and `m_featureElemType`. -/
def DataFrameConfigHelper.GetFeatureConfigs (self : DataFrameConfigHelper) :
    Except ConfigError DataFrameConfigHelper := do
  if !self.m_config.Exists "features" then
    InvalidArgument
      "Features property is missing. Please specify feature information in your BrainScript."
  let featuresInput := (← self.m_config.get "features").params
  if !ConfigParameters.Exists featuresInput "dim" then
    InvalidArgument "Features must specify dimension: 'dim' property is missing."
  if !ConfigParameters.Exists featuresInput "format" then
    InvalidArgument "Features must specify format: 'format' property is missing."
  let featDim ← stoi (← ConfigParameters.get featuresInput "dim").text
  return { self with m_featureDim := toSizeT featDim, m_featureElemType := .dense }

/-- The member `DataFrameConfigHelper::GetLabelConfigs`, called on the
members `m_labelDim` and `m_labelElemType`. -/
def DataFrameConfigHelper.GetLabelConfigs (self : DataFrameConfigHelper) :
    Except ConfigError DataFrameConfigHelper := do
  if !self.m_config.Exists "labels" then
    InvalidArgument
      "Labels property is missing. Please specify label information in your BrainScript."
  let labelsConfig := (← self.m_config.get "labels").params
  if !ConfigParameters.Exists labelsConfig "dim" then
    InvalidArgument "Labels must specify dimension: 'dim' property is missing."
  if !ConfigParameters.Exists labelsConfig "format" then
    InvalidArgument "Labels must specify format: 'format' property is missing."
  let labelDim ← stoi (← ConfigParameters.get labelsConfig "dim").text
  return { self with m_labelDim := toSizeT labelDim, m_labelElemType := .dense }

/-- The member `DataFrameConfigHelper::GetHdfsConfigs`: it assigns the
members `m_host`, `m_filePath`, `m_port` and `m_format`. -/
def DataFrameConfigHelper.GetHdfsConfigs (self : DataFrameConfigHelper) :
    Except ConfigError DataFrameConfigHelper := do
  if !self.m_config.Exists "hdfs" then
    InvalidArgument
      "No HDFS configurations were specified. Please specify HDFS configuration in your BrainScript."
  let hdfsConfig := (← self.m_config.get "hdfs").params
  if !ConfigParameters.Exists hdfsConfig "host" then
    InvalidArgument "HDFS configurations must specify host: 'host' property is missing."
  if !ConfigParameters.Exists hdfsConfig "filePath" then
    InvalidArgument "HDFS configurations must specify file path: 'filePath' property is missing."
  if !ConfigParameters.Exists hdfsConfig "port" then
    InvalidArgument "HDFS configurations must specify port number: 'port' property is missing."
  if !ConfigParameters.Exists hdfsConfig "format" then
    InvalidArgument "HDFS configurations must specify file format: 'format' property is missing."
  let host ← ConfigParameters.get hdfsConfig "host"
  let filePath ← ConfigParameters.get hdfsConfig "filePath"
  let port ← stoi (← ConfigParameters.get hdfsConfig "port").text
  return { self with m_host := host.text, m_filePath := filePath.text, m_port := port,
                     m_format := .Parquet }

/-- The constructor `DataFrameConfigHelper::DataFrameConfigHelper(config)`.
It first prints a line and dumps the configuration, which is not modelled.
The members not yet assigned are indeterminate; they stand here with a zero
or an empty text. An exception leaves no object. -/
def DataFrameConfigHelper.new (config : ConfigParameters) :
    Except ConfigError DataFrameConfigHelper := do
  let self : DataFrameConfigHelper :=
    { m_config := config, m_source := .HDFS, m_host := "", m_filePath := "", m_port := 0,
      m_format := .Parquet, m_labelDim := 0, m_labelElemType := .dense, m_featureDim := 0,
      m_featureElemType := .dense }
  let self ← self.GetHdfsConfigs
  let self ← self.GetLabelConfigs
  self.GetFeatureConfigs

/-- The member `DataFrameConfigHelper::GetHDFSConfig`: the out-parameters
`host`, `path` and `port`. -/
def DataFrameConfigHelper.GetHDFSConfig (self : DataFrameConfigHelper) : String × String × Int :=
  (self.m_host, self.m_filePath, self.m_port)

/-- The member `DataFrameConfigHelper::GetInputDimension`. -/
def DataFrameConfigHelper.GetInputDimension (self : DataFrameConfigHelper) (type : InputType) : Nat :=
  if type = .Features then self.m_featureDim else self.m_labelDim

/-! ## Vocabulary of the property on the configuration -/

/-- Whether the key `key` is present in the section `sec` of a configuration. -/
def sectionHas (config : ConfigParameters) (sec key : String) : Bool :=
  match config.lookup sec with
  | some v => ConfigParameters.Exists v.params key
  | none => false

/-- The keys `hdfs`, `hdfs.host`, `hdfs.filePath`, `hdfs.port`, `hdfs.format` are present. -/
def hdfsComplete (config : ConfigParameters) : Bool :=
  config.Exists "hdfs" && sectionHas config "hdfs" "host" && sectionHas config "hdfs" "filePath" &&
    sectionHas config "hdfs" "port" && sectionHas config "hdfs" "format"

/-- The keys `labels`, `labels.dim`, `labels.format` are present. -/
def labelsComplete (config : ConfigParameters) : Bool :=
  config.Exists "labels" && sectionHas config "labels" "dim" && sectionHas config "labels" "format"

/-- The keys `features`, `features.dim`, `features.format` are present. -/
def featuresComplete (config : ConfigParameters) : Bool :=
  config.Exists "features" && sectionHas config "features" "dim" &&
    sectionHas config "features" "format"

/-- The text of the value of key `key` of section `sec`, empty when absent. -/
def sectionText (config : ConfigParameters) (sec key : String) : String :=
  match config.lookup sec with
  | some v =>
    match v.params.lookup key with
    | some w => w.text
    | none => ""
  | none => ""

/-- A value that is only a text. -/
def textValue (text : String) : ConfigValue :=
  .mk text []

/-- A configuration with a complete `hdfs` section, whose port is beyond the
range of `int`, and no `labels` and no `features` section. -/
def bigPortConfig : ConfigParameters :=
  [("hdfs", .mk "" [("host", textValue "node0"), ("filePath", textValue "/data/train.parquet"),
    ("port", textValue "99999999999"), ("format", textValue "parquet")])]

/-- A configuration with complete `hdfs` and `labels` sections and no
`features` section. -/
def noFeaturesConfig : ConfigParameters :=
  [("hdfs", .mk "" [("host", textValue "node0"), ("filePath", textValue "/data/train.parquet"),
    ("port", textValue "9000"), ("format", textValue "parquet")]),
   ("labels", .mk "" [("dim", textValue "10"), ("format", textValue "dense")])]

end DF

namespace hdfs

/-! ## Lemmas on the column loop -/

theorem buildArray_loop {α : Type} (results : Nat → α) (l : List Nat) (acc : List α) :
    l.foldl (fun built i => built ++ [results i]) acc = acc ++ l.map results := by
  induction l generalizing acc with
  | nil => simp
  | cons i l ih => simp [ih]

theorem buildArray_eq_map {α : Type} (numRows : Nat) (results : Nat → α) :
    buildArray numRows results = (List.range numRows).map results := by
  simp [buildArray, buildArray_loop]

/-- A column that passes leaves the loop state with its array appended, or
with the notice printed. -/
theorem ReadBatchColumn_passes (N : Bool) (W : Nat) (stack : Nat → Nat → Byte)
    (schema : SchemaDescriptor) (rgr : RowGroupReader) (n : Nat) (st : LoopState) (col : Nat)
    (hst : st.failure = none) (hp : columnPasses N W schema rgr.columns n col = true) :
    ReadBatchColumn N W (stack col) schema rgr n st col =
      { columns := st.columns ++ (arrayAt W stack schema rgr.columns n col).toList
        reads := st.reads ++ (if supportedAt schema col then [col] else [])
        out := st.out ++ (if supportedAt schema col then [] else [unsupportedNotice])
        failure := none } := by
  obtain ⟨cols, reads, out, failure⟩ := st
  simp only at hst
  subst hst
  unfold columnPasses at hp
  cases hd : schema[col]? with
  | none => simp [hd] at hp
  | some d =>
    cases hc : rgr.columns[col]? with
    | none => simp [hd, hc] at hp
    | some cr =>
      rw [hd, hc] at hp
      unfold ReadBatchColumn
      simp only [RowGroupReader.Column, hc, ParquetReader.GetColumnDescriptor, hd, supportedAt,
        arrayAt]
      cases hpt : d.physical_type <;> cases cr <;> cases N <;>
        simp [hpt, wellTyped, Supported, countsPass, withinBuffers, columnArray,
          ColumnReader.rowsRead, ColumnReader.valuesRead, buildArray_eq_map] at hp ⊢ <;>
        first
        | omega
        | (split_ifs <;> first | rfl | omega)

/-- Once the loop has failed, the body does nothing more. -/
theorem ReadBatchColumn_failed (N : Bool) (W : Nat) (stack : Nat → Byte)
    (schema : SchemaDescriptor) (rgr : RowGroupReader) (n : Nat) (st : LoopState) (col : Nat)
    (e : ReadError) (hst : st.failure = some e) :
    ReadBatchColumn N W stack schema rgr n st col = st := by
  unfold ReadBatchColumn
  simp [hst]

theorem columnLoop_failed (N : Bool) (W : Nat) (stack : Nat → Nat → Byte)
    (schema : SchemaDescriptor) (rgr : RowGroupReader) (n : Nat) (cols : List Nat)
    (st : LoopState) (e : ReadError) (hst : st.failure = some e) :
    columnLoop N W stack schema rgr n cols st = st := by
  induction cols with
  | nil => rfl
  | cons c cs ih =>
    simp only [columnLoop, List.foldl_cons] at ih ⊢
    rw [ReadBatchColumn_failed N W (stack c) schema rgr n st c e hst]
    exact ih

theorem columnLoop_succ (N : Bool) (W : Nat) (stack : Nat → Nat → Byte)
    (schema : SchemaDescriptor) (rgr : RowGroupReader) (n : Nat) (k : Nat) (st : LoopState) :
    columnLoop N W stack schema rgr n (List.range (k + 1)) st =
      ReadBatchColumn N W (stack k) schema rgr n
        (columnLoop N W stack schema rgr n (List.range k) st) k := by
  simp [columnLoop, List.range_succ, List.foldl_append]

theorem columnLoop_append (N : Bool) (W : Nat) (stack : Nat → Nat → Byte)
    (schema : SchemaDescriptor) (rgr : RowGroupReader) (n : Nat) (l₁ l₂ : List Nat)
    (st : LoopState) :
    columnLoop N W stack schema rgr n (l₁ ++ l₂) st =
      columnLoop N W stack schema rgr n l₂ (columnLoop N W stack schema rgr n l₁ st) := by
  simp [columnLoop, List.foldl_append]

/-- A body that ends without a failure started without one, on a column that passes. -/
theorem ReadBatchColumn_no_failure (N : Bool) (W : Nat) (stack : Nat → Byte)
    (schema : SchemaDescriptor) (rgr : RowGroupReader) (n : Nat) (st : LoopState) (col : Nat)
    (h : (ReadBatchColumn N W stack schema rgr n st col).failure = none) :
    st.failure = none ∧ columnPasses N W schema rgr.columns n col = true := by
  obtain ⟨cols, reads, out, failure⟩ := st
  cases failure with
  | some e => simp [ReadBatchColumn] at h
  | none =>
    refine ⟨rfl, ?_⟩
    unfold ReadBatchColumn at h
    unfold columnPasses
    simp only [RowGroupReader.Column, ParquetReader.GetColumnDescriptor] at h
    cases hc : rgr.columns[col]? with
    | none => simp [hc] at h
    | some cr =>
      cases hd : schema[col]? with
      | none => simp [hc, hd] at h
      | some d =>
        simp only [hc, hd] at h ⊢
        cases hpt : d.physical_type <;> cases cr <;> cases N <;>
          simp [hpt, wellTyped, Supported, countsPass, withinBuffers, ColumnReader.rowsRead,
            ColumnReader.valuesRead] at h ⊢ <;>
          (split_ifs at h; omega)

/-- The loop over the first `k` columns, when each of them passes. -/
theorem columnLoop_passes (N : Bool) (W : Nat) (stack : Nat → Nat → Byte)
    (schema : SchemaDescriptor) (rgr : RowGroupReader) (n : Nat) (st : LoopState)
    (hst : st.failure = none) (k : Nat)
    (hall : ∀ col, col < k → columnPasses N W schema rgr.columns n col = true) :
    columnLoop N W stack schema rgr n (List.range k) st =
      { columns := st.columns ++ (List.range k).filterMap (arrayAt W stack schema rgr.columns n)
        reads := st.reads ++ (List.range k).filter (supportedAt schema)
        out := st.out ++
          ((List.range k).filter (fun c => !supportedAt schema c)).map (fun _ => unsupportedNotice)
        failure := none } := by
  induction k with
  | zero =>
    obtain ⟨cols, reads, out, failure⟩ := st
    simp only at hst
    simp [columnLoop, hst]
  | succ k ih =>
    rw [columnLoop_succ, ih (fun col hcol => hall col (Nat.lt_succ_of_lt hcol))]
    rw [ReadBatchColumn_passes N W stack schema rgr n _ k rfl (hall k (Nat.lt_succ_self k))]
    simp only [List.range_succ, List.filterMap_append, List.filter_append, List.map_append,
      List.append_assoc]
    cases hs : supportedAt schema k <;> cases ha : arrayAt W stack schema rgr.columns n k <;>
      simp [hs, ha]

/-- A loop that ends without a failure passed every column. -/
theorem columnLoop_no_failure (N : Bool) (W : Nat) (stack : Nat → Nat → Byte)
    (schema : SchemaDescriptor) (rgr : RowGroupReader) (n : Nat) (st : LoopState) (k : Nat)
    (h : (columnLoop N W stack schema rgr n (List.range k) st).failure = none) :
    st.failure = none ∧ ∀ col, col < k → columnPasses N W schema rgr.columns n col = true := by
  induction k with
  | zero => exact ⟨by simpa [columnLoop] using h, fun col hcol => absurd hcol (Nat.not_lt_zero col)⟩
  | succ k ih =>
    rw [columnLoop_succ] at h
    obtain ⟨hprev, hk⟩ := ReadBatchColumn_no_failure N W (stack k) schema rgr n _ k h
    obtain ⟨h0, hlt⟩ := ih hprev
    refine ⟨h0, fun col hcol => ?_⟩
    rcases Nat.lt_succ_iff_lt_or_eq.mp hcol with hlt2 | heq
    · exact hlt col hlt2
    · rw [heq]; exact hk

/-- On an open reader with its metadata loaded, `ReadBatch` of a row group
of the file is the column loop over the columns of the schema. -/
theorem ReadBatch_loaded (N : Bool) (W : Nat) (stack : Nat → Nat → Byte) (file : RandomAccessFile)
    (idx : Nat) (rg : RowGroup) (hrg : file.content.row_groups[idx]? = some rg) :
    ParquetReader.ReadBatch N W stack (ParquetReader.loaded file) (idx : Int) =
      runOfLoop (FromParquetSchema file.content.schema) rg.num_rows
        (columnLoop N W stack file.content.schema { columns := rg.columns } rg.num_rows
          (List.range file.content.schema.length)
          { columns := [], reads := [], out := [], failure := none }) := by
  have h0 : ¬ ((idx : Int) < 0) := by omega
  simp [ParquetReader.ReadBatch, ParquetReader.loaded, ParquetReader.new, ParquetReader.GetMetadata,
    ParquetReader.GetNumCols, ParquetReader.GetSchema, ParquetReader.GetRowGroupMetaData,
    ParquetReader.ParquetSchemaToArrowSchema, FromParquetSchema, ParquetFileReader.Open,
    ParquetFileReader.metadata, ParquetFileReader.RowGroup, ParseMetaData, FileMetaData.RowGroup,
    FileMetaData.num_columns, hrg, columnLoop, runOfLoop, h0]

/-! ## Lemmas on the arrays of a row group -/

theorem arrayAt_isSome (N : Bool) (W : Nat) (stack : Nat → Nat → Byte) (schema : SchemaDescriptor)
    (readers : List ColumnReader) (n col : Nat)
    (hp : columnPasses N W schema readers n col = true) :
    (arrayAt W stack schema readers n col).isSome = supportedAt schema col := by
  unfold columnPasses at hp
  unfold arrayAt supportedAt
  cases hd : schema[col]? with
  | none => simp [hd] at hp
  | some d =>
    cases hc : readers[col]? with
    | none => simp [hd, hc] at hp
    | some cr =>
      rw [hd, hc] at hp
      simp only [Bool.and_eq_true] at hp
      cases hpt : d.physical_type <;> cases cr <;>
        simp_all [wellTyped, Supported, columnArray]

theorem arrayAt_length (W : Nat) (stack : Nat → Nat → Byte) (schema : SchemaDescriptor)
    (readers : List ColumnReader) (n col : Nat) (a : ArrowArray)
    (h : arrayAt W stack schema readers n col = some a) : a.length = n := by
  unfold arrayAt at h
  cases hd : schema[col]? with
  | none => simp [hd] at h
  | some d =>
    cases hc : readers[col]? with
    | none => simp [hd, hc] at h
    | some cr =>
      rw [hd, hc] at h
      simp only at h
      unfold columnArray at h
      cases hpt : d.physical_type <;> cases cr <;> simp [hpt] at h <;>
        (subst h; simp [ArrowArray.length])

/-- The array the loop body appends for a column is the one of that column. -/
theorem arrayAt_belongs (W : Nat) (stack : Nat → Nat → Byte) (schema : SchemaDescriptor)
    (readers : List ColumnReader) (n col : Nat) (d : ColumnDescriptor) (cr : ColumnReader)
    (a : ArrowArray) (hd : schema[col]? = some d) (hc : readers[col]? = some cr)
    (h : arrayAt W stack schema readers n col = some a) : BelongsTo W n d cr a := by
  unfold arrayAt at h
  rw [hd, hc] at h
  simp only at h
  unfold columnArray at h
  unfold BelongsTo
  cases hpt : d.physical_type <;> cases cr <;> simp [hpt] at h ⊢ <;>
    first
    | exact h.symm
    | exact ⟨_, h.symm, by simp⟩

theorem length_filterMap_of_isSome {β : Type} (f : Nat → Option β) (p : Nat → Bool)
    (l : List Nat) (h : ∀ c, c ∈ l → (f c).isSome = p c) :
    (l.filterMap f).length = (l.filter p).length := by
  induction l with
  | nil => rfl
  | cons c cs ih =>
    have hc := h c (List.mem_cons_self c cs)
    have ih2 := ih (fun x hx => h x (List.mem_cons_of_mem c hx))
    cases hf : f c with
    | none =>
      have hpc : p c = false := by rw [← hc, hf]; rfl
      simp [List.filterMap_cons, List.filter_cons, hf, hpc, ih2]
    | some b =>
      have hpc : p c = true := by rw [← hc, hf]; rfl
      simp [List.filterMap_cons, List.filter_cons, hf, hpc, ih2]

theorem length_filter_range_supported (schema : SchemaDescriptor) (k : Nat)
    (hk : k ≤ schema.length) :
    ((List.range k).filter (supportedAt schema)).length =
      ((schema.take k).filter (fun d => Supported d.physical_type)).length := by
  induction k with
  | zero => simp
  | succ k ih =>
    have hlt : k < schema.length := hk
    rw [List.range_succ, List.filter_append, List.length_append, ih (Nat.le_of_lt hlt),
      List.take_succ, List.filter_append, List.length_append]
    congr 1
    have hs : supportedAt schema k = Supported (schema[k]).physical_type := by
      simp [supportedAt, List.getElem?_eq_getElem hlt]
    simp only [List.getElem?_eq_getElem hlt, Option.toList_some, List.filter_cons, List.filter_nil,
      hs]
    split <;> rfl

/-- The entry of column `col` stands in the filtered list right after the
entries of the columns before it. -/
theorem filterMap_range_position {β : Type} (f : Nat → Option β) (n col : Nat) (hcol : col < n)
    (a : β) (ha : f col = some a) :
    ((List.range n).filterMap f)[((List.range col).filterMap f).length]? = some a := by
  obtain ⟨m, rfl⟩ : ∃ m, n = col + (m + 1) := ⟨n - col - 1, by omega⟩
  rw [List.range_add, List.filterMap_append, List.range_succ_eq_map, List.map_cons,
    List.filterMap_cons]
  simp only [Nat.add_zero, ha]
  rw [List.getElem?_append_right (Nat.le_refl _)]
  simp

theorem map_range_eq_self {α : Type} (v : List α) (f : Nat → α)
    (h : ∀ i (hi : i < v.length), f i = v[i]) : (List.range v.length).map f = v := by
  apply List.ext_getElem
  · simp
  · intro i h₁ h₂
    simp [h i h₂]

/-! ## ReadBatch on a row group of the file -/

/-- When every column passes, `ReadBatch` returns the batch of the arrays of
the columns that have one, reads those columns and prints a notice for each
of the others. -/
theorem ReadBatch_of_checks (N : Bool) (W : Nat) (stack : Nat → Nat → Byte)
    (file : RandomAccessFile) (idx : Nat) (rg : RowGroup)
    (hrg : file.content.row_groups[idx]? = some rg)
    (hpass : AllColumnsPass N W file.content.schema rg) :
    ParquetReader.ReadBatch N W stack (ParquetReader.loaded file) (idx : Int) =
      { result := .ok
          { schema := FromParquetSchema file.content.schema
            num_rows := rg.num_rows
            columns := (List.range file.content.schema.length).filterMap
              (arrayAt W stack file.content.schema rg.columns rg.num_rows) }
        reads := (List.range file.content.schema.length).filter (supportedAt file.content.schema)
        out := ((List.range file.content.schema.length).filter
          (fun c => !supportedAt file.content.schema c)).map (fun _ => unsupportedNotice) } := by
  rw [ReadBatch_loaded N W stack file idx rg hrg,
    columnLoop_passes N W stack file.content.schema { columns := rg.columns } rg.num_rows _ rfl
      file.content.schema.length hpass]
  simp [runOfLoop]

/-- When `ReadBatch` returns a batch, every column passed. -/
theorem ReadBatch_ok_checks (N : Bool) (W : Nat) (stack : Nat → Nat → Byte)
    (file : RandomAccessFile) (idx : Nat) (rg : RowGroup)
    (hrg : file.content.row_groups[idx]? = some rg) (b : RecordBatch)
    (hb : (ParquetReader.ReadBatch N W stack (ParquetReader.loaded file) (idx : Int)).result
      = .ok b) :
    AllColumnsPass N W file.content.schema rg := by
  rw [ReadBatch_loaded N W stack file idx rg hrg] at hb
  unfold runOfLoop at hb
  split at hb
  · simp at hb
  · next hnone =>
    exact (columnLoop_no_failure N W stack file.content.schema { columns := rg.columns }
      rg.num_rows _ _ hnone).2

/-- The batch of a row group on which every column passes: its length, and
the array at the position of each column. -/
theorem supported_arrays_of_checks (N : Bool) (W : Nat) (stack : Nat → Nat → Byte)
    (file : RandomAccessFile) (idx : Nat) (rg : RowGroup)
    (hrg : file.content.row_groups[idx]? = some rg)
    (hpass : AllColumnsPass N W file.content.schema rg) :
    ∃ b, (ParquetReader.ReadBatch N W stack (ParquetReader.loaded file) (idx : Int)).result
        = .ok b ∧
      b.num_rows = rg.num_rows ∧
      b.columns.length =
        (file.content.schema.filter (fun d => Supported d.physical_type)).length ∧
      (∀ a, a ∈ b.columns → a.length = rg.num_rows) ∧
      ∀ col a, col < file.content.schema.length →
        arrayAt W stack file.content.schema rg.columns rg.num_rows col = some a →
        b.columns[positionOf file.content.schema col]? = some a := by
  refine ⟨_, by rw [ReadBatch_of_checks N W stack file idx rg hrg hpass], rfl, ?_, ?_, ?_⟩
  · simp only
    rw [length_filterMap_of_isSome _ (supportedAt file.content.schema) _
      (fun c hc => arrayAt_isSome N W stack _ _ _ c (hpass c (List.mem_range.mp hc))),
      length_filter_range_supported _ _ (Nat.le_refl _), List.take_length]
  · intro a ha
    obtain ⟨c, _, hc⟩ := List.mem_filterMap.mp ha
    exact arrayAt_length W stack _ _ _ c a hc
  · intro col a hcol ha
    simp only
    have hpos : positionOf file.content.schema col =
        ((List.range col).filterMap
          (arrayAt W stack file.content.schema rg.columns rg.num_rows)).length := by
      unfold positionOf
      rw [length_filterMap_of_isSome _ (supportedAt file.content.schema) _
        (fun c hc => arrayAt_isSome N W stack _ _ _ c
          (hpass c (Nat.lt_trans (List.mem_range.mp hc) hcol)))]
    rw [hpos]
    exact filterMap_range_position _ _ col hcol a ha

/-! ## The claims on ReadBatch -/

/-- C10. For every row group on which every column passes its checks, the
column list of the batch `ReadBatch` returns is the sequence of the arrays of
the columns of a supported physical type, in schema order; a column of
another type contributes no entry. So the batch has as many columns as the
schema has columns of a supported type, and the array of a column stands at
the position given by the number of supported columns before it, not at the
index of the column. For a Float32 or Float64 column that array holds the
values the reader handed back; of the array of a FixedLenByteArray column
only the kind and the length are stated. -/
theorem ReadBatch_columns_of_supported (N : Bool) (W : Nat) (stack : Nat → Nat → Byte)
    (file : RandomAccessFile) (idx : Nat) (rg : RowGroup)
    (hrg : file.content.row_groups[idx]? = some rg)
    (hpass : AllColumnsPass N W file.content.schema rg) :
    ∃ b, (ParquetReader.ReadBatch N W stack (ParquetReader.loaded file) (idx : Int)).result
        = .ok b ∧
      b.columns.length =
        (file.content.schema.filter (fun d => Supported d.physical_type)).length ∧
      ∀ (col : Nat) (d : ColumnDescriptor) (cr : ColumnReader),
        file.content.schema[col]? = some d → rg.columns[col]? = some cr →
        Supported d.physical_type = true →
        ∃ a, b.columns[positionOf file.content.schema col]? = some a ∧
          BelongsTo W rg.num_rows d cr a := by
  obtain ⟨b, hb, _, hlen, _, hpos⟩ := supported_arrays_of_checks N W stack file idx rg hrg hpass
  refine ⟨b, hb, hlen, fun col d cr hd hc hsup => ?_⟩
  have hcol : col < file.content.schema.length := by
    by_contra hge
    rw [List.getElem?_eq_none (Nat.le_of_not_lt hge)] at hd
    exact Option.noConfusion hd
  have hsome := arrayAt_isSome N W stack file.content.schema rg.columns rg.num_rows col
    (hpass col hcol)
  have hs : supportedAt file.content.schema col = true := by
    simp [supportedAt, hd, hsup]
  rw [hs] at hsome
  obtain ⟨a, ha⟩ := Option.isSome_iff_exists.mp hsome
  exact ⟨a, hpos col a hcol ha, arrayAt_belongs W stack _ _ _ col d cr a hd hc ha⟩

/-- C10 on the row group of `mixedFile`: the batch has one column, and at
position 0 stands the array of the Float32 column, which is column 1. -/
theorem ReadBatch_columns_of_supported_witness :
    ∃ b, (ParquetReader.ReadBatch false 4 zeroStack (ParquetReader.loaded mixedFile) 0).result
        = .ok b ∧
      b.columns.length = 1 ∧
      b.columns[0]? = some (.FloatArray [⟨0x3F800000⟩, ⟨0x40200000⟩]) := by
  obtain ⟨b, hb, hlen, hcols⟩ := ReadBatch_columns_of_supported false 4 zeroStack mixedFile 0
    { num_rows := 2
      columns := [.OtherReader, .FloatReader (pageReader [⟨0x3F800000⟩, ⟨0x40200000⟩] ⟨0⟩)] }
    rfl (by decide)
  obtain ⟨a, ha, hbel⟩ := hcols 1 ⟨"x", .FLOAT, 0⟩
    (.FloatReader (pageReader [⟨0x3F800000⟩, ⟨0x40200000⟩] ⟨0⟩)) rfl rfl rfl
  have hval : a = .FloatArray [⟨0x3F800000⟩, ⟨0x40200000⟩] := hbel
  rw [hval] at ha
  exact ⟨b, hb, hlen, ha⟩

/-- C1, as the code has it. For every open file and every row group of it,
in either build, a batch `ReadBatch` returns has the declared row count of
the row group, and as many columns as the schema has columns of a supported
physical type (Float32, Float64, FixedLenByteArray): the column count of the
schema when every column is of such a type. A batch is returned when every
column passes its checks. -/
theorem ReadBatch_row_count_and_column_count (N : Bool) (W : Nat) (stack : Nat → Nat → Byte)
    (file : RandomAccessFile) (idx : Nat) (rg : RowGroup)
    (hrg : file.content.row_groups[idx]? = some rg) :
    (∀ b, (ParquetReader.ReadBatch N W stack (ParquetReader.loaded file) (idx : Int)).result
        = .ok b →
      b.num_rows = rg.num_rows ∧
      b.columns.length =
        (file.content.schema.filter (fun d => Supported d.physical_type)).length ∧
      ((∀ d, d ∈ file.content.schema → Supported d.physical_type = true) →
        (ParquetReader.loaded file).GetNumCols = .ok b.columns.length)) ∧
    (AllColumnsPass N W file.content.schema rg →
      ∃ b, (ParquetReader.ReadBatch N W stack (ParquetReader.loaded file) (idx : Int)).result
        = .ok b) := by
  refine ⟨fun b hb => ?_, fun hpass => ?_⟩
  · have hpass := ReadBatch_ok_checks N W stack file idx rg hrg b hb
    obtain ⟨b2, hb2, hrows, hlen, _, _⟩ :=
      supported_arrays_of_checks N W stack file idx rg hrg hpass
    rw [hb] at hb2
    have hbb : b = b2 := Except.ok.inj hb2
    subst hbb
    refine ⟨hrows, hlen, fun hall => ?_⟩
    rw [hlen, List.filter_eq_self.mpr (fun d hd => hall d hd)]
    rfl
  · obtain ⟨b, hb, _⟩ := supported_arrays_of_checks N W stack file idx rg hrg hpass
    exact ⟨b, hb⟩

/-- C1, as the code has it, on the row group of `floatFile`. -/
theorem ReadBatch_row_count_and_column_count_witness :
    ∃ b, (ParquetReader.ReadBatch false 4 zeroStack (ParquetReader.loaded floatFile) 0).result
        = .ok b ∧
      b.num_rows = 5 ∧ b.columns.length = 2 := by
  have h := ReadBatch_row_count_and_column_count false 4 zeroStack floatFile 0
    { num_rows := 5
      columns := [.FloatReader (pageReader fiveFloats ⟨0⟩),
        .DoubleReader (pageReader fiveDoubles ⟨0⟩)] } rfl
  obtain ⟨b, hb⟩ := h.2 (by decide)
  exact ⟨b, hb, (h.1 b hb).1, (h.1 b hb).2.1⟩

/-- C1 fails as stated: the schema of `mixedFile` has two columns, and the
batch read from its row group has one. -/
theorem ReadBatch_fewer_columns_than_schema :
    ∃ b, (ParquetReader.ReadBatch false 4 zeroStack (ParquetReader.loaded mixedFile) 0).result
        = .ok b ∧
      b.num_rows = 2 ∧ b.columns.length = 1 ∧
      (ParquetReader.loaded mixedFile).GetNumCols = .ok 2 :=
  ⟨_, rfl, rfl, rfl, rfl⟩

/-- C2. In either build, every array of a batch `ReadBatch` returns has
exactly the declared row count of the row group as its number of values; and
when every column passes its checks, the batch has such an array for every
column of type Float32, Float64 or FixedLenByteArray. -/
theorem ReadBatch_array_length (N : Bool) (W : Nat) (stack : Nat → Nat → Byte)
    (file : RandomAccessFile) (idx : Nat) (rg : RowGroup)
    (hrg : file.content.row_groups[idx]? = some rg) :
    (∀ b, (ParquetReader.ReadBatch N W stack (ParquetReader.loaded file) (idx : Int)).result
        = .ok b →
      ∀ a, a ∈ b.columns → a.length = rg.num_rows) ∧
    (AllColumnsPass N W file.content.schema rg →
      ∀ col, col < file.content.schema.length → supportedAt file.content.schema col = true →
        ∃ b a, (ParquetReader.ReadBatch N W stack (ParquetReader.loaded file) (idx : Int)).result
            = .ok b ∧
          b.columns[positionOf file.content.schema col]? = some a ∧ a.length = rg.num_rows) := by
  refine ⟨fun b hb a ha => ?_, fun hpass col hcol hsup => ?_⟩
  · have hpass := ReadBatch_ok_checks N W stack file idx rg hrg b hb
    obtain ⟨b2, hb2, _, _, hall, _⟩ := supported_arrays_of_checks N W stack file idx rg hrg hpass
    rw [hb] at hb2
    have hbb : b = b2 := Except.ok.inj hb2
    subst hbb
    exact hall a ha
  · obtain ⟨b, hb, _, _, _, hpos⟩ := supported_arrays_of_checks N W stack file idx rg hrg hpass
    have hsome := arrayAt_isSome N W stack file.content.schema rg.columns rg.num_rows col
      (hpass col hcol)
    rw [hsup] at hsome
    obtain ⟨a, ha⟩ := Option.isSome_iff_exists.mp hsome
    exact ⟨b, a, hb, hpos col a hcol ha, arrayAt_length W stack _ _ _ col a ha⟩

/-- C2 on the row group of `floatFile`: five values in each array. -/
theorem ReadBatch_array_length_witness :
    ∃ b, (ParquetReader.ReadBatch false 4 zeroStack (ParquetReader.loaded floatFile) 0).result
        = .ok b ∧
      ∀ a, a ∈ b.columns → a.length = 5 :=
  ⟨_, rfl, (ReadBatch_array_length false 4 zeroStack floatFile 0
    { num_rows := 5
      columns := [.FloatReader (pageReader fiveFloats ⟨0⟩),
        .DoubleReader (pageReader fiveDoubles ⟨0⟩)] } rfl).1 _ rfl⟩

/-- C3. Round trip of the float columns. On a row group whose columns pass
their checks, when the reader of a Float32 column hands back the value
sequence `v` of the column, of the declared row count, the array of that
column in the batch `ReadBatch` returns holds exactly `v`, in order; and
likewise for a Float64 column. -/
theorem ReadBatch_float_round_trip (N : Bool) (W : Nat) (stack : Nat → Nat → Byte)
    (file : RandomAccessFile) (idx : Nat) (rg : RowGroup)
    (hrg : file.content.row_groups[idx]? = some rg)
    (hpass : AllColumnsPass N W file.content.schema rg) :
    (∀ col d rd (v : List FloatValue),
      file.content.schema[col]? = some d → d.physical_type = .FLOAT →
      rg.columns[col]? = some (.FloatReader rd) → v.length = rg.num_rows →
      (∀ i (hi : i < v.length), (rd rg.num_rows).values i = v[i]) →
      ∃ b, (ParquetReader.ReadBatch N W stack (ParquetReader.loaded file) (idx : Int)).result
          = .ok b ∧
        b.columns[positionOf file.content.schema col]? = some (.FloatArray v)) ∧
    (∀ col d rd (v : List DoubleValue),
      file.content.schema[col]? = some d → d.physical_type = .DOUBLE →
      rg.columns[col]? = some (.DoubleReader rd) → v.length = rg.num_rows →
      (∀ i (hi : i < v.length), (rd rg.num_rows).values i = v[i]) →
      ∃ b, (ParquetReader.ReadBatch N W stack (ParquetReader.loaded file) (idx : Int)).result
          = .ok b ∧
        b.columns[positionOf file.content.schema col]? = some (.DoubleArray v)) := by
  obtain ⟨b, hb, _, _, _, hpos⟩ := supported_arrays_of_checks N W stack file idx rg hrg hpass
  refine ⟨fun col d rd v hd hpt hcr hlen hv => ⟨b, hb, ?_⟩,
    fun col d rd v hd hpt hcr hlen hv => ⟨b, hb, ?_⟩⟩
  · have hcol : col < file.content.schema.length := by
      by_contra hge
      rw [List.getElem?_eq_none (Nat.le_of_not_lt hge)] at hd
      exact Option.noConfusion hd
    apply hpos col _ hcol
    simp only [arrayAt, hd, hcr, columnArray, hpt]
    rw [← hlen, map_range_eq_self v _
      (fun i hi => (congrArg (fun n : Nat => (rd (n : Int)).values i) hlen).trans (hv i hi))]
  · have hcol : col < file.content.schema.length := by
      by_contra hge
      rw [List.getElem?_eq_none (Nat.le_of_not_lt hge)] at hd
      exact Option.noConfusion hd
    apply hpos col _ hcol
    simp only [arrayAt, hd, hcr, columnArray, hpt]
    rw [← hlen, map_range_eq_self v _
      (fun i hi => (congrArg (fun n : Nat => (rd (n : Int)).values i) hlen).trans (hv i hi))]

/-- C3 on `floatFile`: the five Float32 values and the five Float64 values read back. -/
theorem ReadBatch_float_round_trip_witness :
    ∃ b, (ParquetReader.ReadBatch false 4 zeroStack (ParquetReader.loaded floatFile) 0).result
        = .ok b ∧
      b.columns[0]? = some (.FloatArray fiveFloats) ∧
      b.columns[1]? = some (.DoubleArray fiveDoubles) := by
  have h := ReadBatch_float_round_trip false 4 zeroStack floatFile 0
    { num_rows := 5
      columns := [.FloatReader (pageReader fiveFloats ⟨0⟩),
        .DoubleReader (pageReader fiveDoubles ⟨0⟩)] } rfl (by decide)
  obtain ⟨b, hb, hf⟩ := h.1 0 ⟨"a", .FLOAT, 0⟩ (pageReader fiveFloats ⟨0⟩) fiveFloats rfl rfl rfl rfl
    (by decide)
  obtain ⟨b2, hb2, hd⟩ := h.2 1 ⟨"b", .DOUBLE, 0⟩ (pageReader fiveDoubles ⟨0⟩) fiveDoubles rfl rfl
    rfl rfl (by decide)
  have hbb : b2 = b := by
    rw [hb] at hb2
    exact (Except.ok.inj hb2).symm
  subst hbb
  exact ⟨b2, hb, hf, hd⟩

/-- C4 does not hold of the code. On `recordFile`, a FixedLenByteArray column
of width 4 with the records 01 02 03 04, AA BB CC DD, 00 00 00 00, the
reader is handed the one slot `flbArray` for three records, and `ReadBatch`
ends in the write past it, in either build. And the array the builder loop
makes of three rows holds the windows of `numBytesForFixedArray` bytes that
start at `results`, `results + 1` and `results + 2`: whatever those bytes
are, it is not the array of the three records written. -/
theorem ReadBatch_fixed_len_records_misread (N : Bool) (W : Nat) (stack : Nat → Nat → Byte) :
    (ParquetReader.ReadBatch N W stack (ParquetReader.loaded recordFile) 0).result
        = .error .bufferOverrun ∧
      buildArray 3 (fun i => bytesAt (stack 0) i W) =
        [bytesAt (stack 0) 0 W, bytesAt (stack 0) 1 W, bytesAt (stack 0) 2 W] ∧
      ArrowArray.FixedSizeBinaryArray W (buildArray 3 (fun i => bytesAt (stack 0) i W)) ≠
        ArrowArray.FixedSizeBinaryArray 4 threeRecords := by
  refine ⟨by cases N <;> rfl, rfl, ?_⟩
  intro h
  have hbuild : buildArray 3 (fun i => bytesAt (stack 0) i W) =
      [bytesAt (stack 0) 0 W, bytesAt (stack 0) 1 W, bytesAt (stack 0) 2 W] := rfl
  rw [hbuild] at h
  simp only [List.cons.injEq, ArrowArray.FixedSizeBinaryArray.injEq, and_true, threeRecords] at h
  obtain ⟨hW, h0, h1, _⟩ := h
  rw [hW] at h0 h1
  have e0 : stack 0 1 = 0x02 := by
    have := congrArg (fun l => l.getD 1 0) h0
    simpa [bytesAt, List.range_succ] using this
  have e1 : stack 0 1 = 0xAA := by
    have := congrArg (fun l => l.getD 0 0) h1
    simpa [bytesAt, List.range_succ] using this
  rw [e0] at e1
  exact absurd e1 (by decide)

/-- C5 does not hold of the code. Compiled with `NDEBUG`, `ReadBatch` on
`shortFile`, where three rows are declared and the reader decodes two, makes
no check and returns a batch of three rows whose third value is what stood
in the buffer. And with the asserts compiled in, the count of rows is
narrowed to `int` before it is compared: on `wideFile` a reader that reports
`2 ^ 32 + 3` rows for the three declared passes the assert. -/
theorem ReadBatch_short_read_returned :
    ((pageReader [(⟨0x3F800000⟩ : FloatValue), ⟨0x40200000⟩] ⟨0⟩ 3).rowsRead = 2 ∧
      (ParquetReader.ReadBatch true 4 zeroStack (ParquetReader.loaded shortFile) 0).result =
        .ok { schema := some [⟨"x", .float32⟩]
              num_rows := 3
              columns := [.FloatArray [⟨0x3F800000⟩, ⟨0x40200000⟩, ⟨0⟩]] }) ∧
    ((ParquetReader.ReadBatch false 4 zeroStack (ParquetReader.loaded shortFile) 0).result =
        .error .assertFailed) ∧
    ((wideReader ⟨0⟩ 3).rowsRead = 2 ^ 32 + 3 ∧
      (ParquetReader.ReadBatch false 4 zeroStack (ParquetReader.loaded wideFile) 0).result =
        .ok { schema := some [⟨"x", .float32⟩]
              num_rows := 3
              columns := [.FloatArray [⟨0⟩, ⟨0⟩, ⟨0⟩]] }) :=
  ⟨⟨rfl, rfl⟩, rfl, ⟨rfl, rfl⟩⟩

/-! ## The index, the unsupported columns, the metadata -/

/-- C6. On a reader whose `GetNumRowGroups()` is `n`, `ReadBatch` of an index
outside `0 <= rowGroupIndex < n`, so of `n` itself, fails with the index
error, and no column reader has been asked for a batch. -/
theorem ReadBatch_index_out_of_range (N : Bool) (W : Nat) (stack : Nat → Nat → Byte)
    (self : ParquetReader) (n : Nat) (rowGroupIndex : Int) (hn : self.GetNumRowGroups = .ok n)
    (hout : rowGroupIndex < 0 ∨ (n : Int) ≤ rowGroupIndex) :
    (ParquetReader.ReadBatch N W stack self rowGroupIndex).result = .error .indexError ∧
      (ParquetReader.ReadBatch N W stack self rowGroupIndex).reads = [] := by
  unfold ParquetReader.GetNumRowGroups at hn
  cases hmd : self.m_metadata with
  | none => simp [hmd] at hn
  | some md =>
    rw [hmd] at hn
    simp only [Except.ok.injEq] at hn
    have hlookup : md.RowGroup rowGroupIndex = .error .indexError := by
      unfold FileMetaData.RowGroup
      by_cases hneg : rowGroupIndex < 0
      · simp [hneg]
      · have hge : md.row_groups.length ≤ rowGroupIndex.toNat := by
          unfold FileMetaData.num_row_groups at hn
          omega
        simp [hneg, List.getElem?_eq_none hge]
    simp [ParquetReader.ReadBatch, ParquetReader.GetNumCols, ParquetReader.GetSchema,
      ParquetReader.GetRowGroupMetaData, hmd, hlookup]

/-- C6 on `mixedFile`, which has one row group: the index 1. -/
theorem ReadBatch_index_out_of_range_witness :
    (ParquetReader.ReadBatch false 4 zeroStack (ParquetReader.loaded mixedFile) 1).result
        = .error .indexError ∧
      (ParquetReader.ReadBatch false 4 zeroStack (ParquetReader.loaded mixedFile) 1).reads = [] :=
  ReadBatch_index_out_of_range false 4 zeroStack (ParquetReader.loaded mixedFile) 1 1 rfl
    (Or.inr (by decide))

/-- C7 fails as stated: for the Int32 column of `mixedFile` the run of
`ReadBatch` holds no error and no entry, only the printed notice; the batch
is returned with the array of the Float32 column alone. -/
theorem ReadBatch_unsupported_column_only_noticed :
    (ParquetReader.ReadBatch false 4 zeroStack (ParquetReader.loaded mixedFile) 0).result =
        .ok { schema := some [⟨"id", .unsupported⟩, ⟨"x", .float32⟩]
              num_rows := 2
              columns := [.FloatArray [⟨0x3F800000⟩, ⟨0x40200000⟩]] } ∧
      (ParquetReader.ReadBatch false 4 zeroStack (ParquetReader.loaded mixedFile) 0).reads = [1] ∧
      (ParquetReader.ReadBatch false 4 zeroStack (ParquetReader.loaded mixedFile) 0).out =
        ["Support for other file types will be added in the future."] :=
  ⟨rfl, rfl, rfl⟩

/-- C7, as the code has it. On a row group whose columns pass their checks, a
column of a physical type other than Float32, Float64 and FixedLenByteArray
gets no error and no entry in the batch, only a printed notice, and a batch
is still returned: every column of a supported type is read, in schema
order, and has its array in the batch. -/
theorem ReadBatch_unsupported_column_skipped (N : Bool) (W : Nat) (stack : Nat → Nat → Byte)
    (file : RandomAccessFile) (idx : Nat) (rg : RowGroup)
    (hrg : file.content.row_groups[idx]? = some rg)
    (hpass : AllColumnsPass N W file.content.schema rg) :
    (∃ b, (ParquetReader.ReadBatch N W stack (ParquetReader.loaded file) (idx : Int)).result
        = .ok b ∧
      b.columns.length + ((List.range file.content.schema.length).filter
        (fun c => !supportedAt file.content.schema c)).length = file.content.schema.length) ∧
    (ParquetReader.ReadBatch N W stack (ParquetReader.loaded file) (idx : Int)).reads =
      (List.range file.content.schema.length).filter (supportedAt file.content.schema) ∧
    (ParquetReader.ReadBatch N W stack (ParquetReader.loaded file) (idx : Int)).out =
      ((List.range file.content.schema.length).filter
        (fun c => !supportedAt file.content.schema c)).map (fun _ => unsupportedNotice) := by
  rw [ReadBatch_of_checks N W stack file idx rg hrg hpass]
  refine ⟨⟨_, rfl, ?_⟩, rfl, rfl⟩
  simp only
  rw [length_filterMap_of_isSome _ (supportedAt file.content.schema) _
    (fun c hc => arrayAt_isSome N W stack _ _ _ c (hpass c (List.mem_range.mp hc)))]
  have hsplit : ∀ l : List Nat,
      (l.filter (supportedAt file.content.schema)).length +
        (l.filter (fun c => !supportedAt file.content.schema c)).length = l.length := by
    intro l
    induction l with
    | nil => rfl
    | cons c cs ih =>
      cases hs : supportedAt file.content.schema c <;>
        simp [List.filter_cons, hs] <;> omega
  rw [hsplit, List.length_range]

/-- C7, as the code has it, on `mixedFile`: the Float32 column is read. -/
theorem ReadBatch_unsupported_column_skipped_witness :
    (ParquetReader.ReadBatch false 4 zeroStack (ParquetReader.loaded mixedFile) 0).reads = [1] :=
  (ReadBatch_unsupported_column_skipped false 4 zeroStack mixedFile 0
    { num_rows := 2
      columns := [.OtherReader, .FloatReader (pageReader [⟨0x3F800000⟩, ⟨0x40200000⟩] ⟨0⟩)] }
    rfl (by decide)).2.1

/-- C9. `GetMetadata` is idempotent: a second call returns the metadata of
the first and leaves the reader as the first left it; no call reads the
footer, which has been read once, by the constructor. -/
theorem GetMetadata_idempotent (self : ParquetReader) (filePtr : RandomAccessFile) :
    self.GetMetadata.2.GetMetadata.1 = self.GetMetadata.1 ∧
      self.GetMetadata.2.GetMetadata.2 = self.GetMetadata.2 ∧
      self.GetMetadata.2.m_pfr.source.footerReads = self.m_pfr.source.footerReads ∧
      (ParquetReader.new filePtr).m_pfr.source.footerReads = filePtr.footerReads + 1 ∧
      (ParquetReader.new filePtr).GetMetadata.2.GetMetadata.2.m_pfr.source.footerReads
        = filePtr.footerReads + 1 :=
  ⟨rfl, rfl, rfl, rfl, rfl⟩

end hdfs

namespace DF

/-! ## The configuration helper -/

/-- C8 fails as stated: `bigPortConfig` has no `labels` key, and the
constructor fails with the out-of-range error of the conversion of
`hdfs.port`, not with an invalid-argument error. -/
theorem DataFrameConfigHelper_missing_labels_out_of_range :
    labelsComplete bigPortConfig = false ∧
      DataFrameConfigHelper.new bigPortConfig = .error (.out_of_range "stoi") :=
  ⟨rfl, rfl⟩

/-- The error `GetHdfsConfigs` raises for the first key of the `hdfs` section
that is missing. -/
theorem GetHdfsConfigs_missing (self : DataFrameConfigHelper) :
    (self.m_config.Exists "hdfs" = false →
      self.GetHdfsConfigs = .error (.invalid_argument
        "No HDFS configurations were specified. Please specify HDFS configuration in your BrainScript.")) ∧
    (self.m_config.Exists "hdfs" = true → sectionHas self.m_config "hdfs" "host" = false →
      self.GetHdfsConfigs = .error (.invalid_argument
        "HDFS configurations must specify host: 'host' property is missing.")) ∧
    (sectionHas self.m_config "hdfs" "host" = true → sectionHas self.m_config "hdfs" "filePath" = false →
      self.GetHdfsConfigs = .error (.invalid_argument
        "HDFS configurations must specify file path: 'filePath' property is missing.")) ∧
    (sectionHas self.m_config "hdfs" "host" = true → sectionHas self.m_config "hdfs" "filePath" = true →
      sectionHas self.m_config "hdfs" "port" = false →
      self.GetHdfsConfigs = .error (.invalid_argument
        "HDFS configurations must specify port number: 'port' property is missing.")) ∧
    (sectionHas self.m_config "hdfs" "host" = true → sectionHas self.m_config "hdfs" "filePath" = true →
      sectionHas self.m_config "hdfs" "port" = true → sectionHas self.m_config "hdfs" "format" = false →
      self.GetHdfsConfigs = .error (.invalid_argument
        "HDFS configurations must specify file format: 'format' property is missing.")) := by
  unfold sectionHas ConfigParameters.Exists DataFrameConfigHelper.GetHdfsConfigs
  simp only [ConfigParameters.Exists, ConfigParameters.get, InvalidArgument]
  cases h0 : List.lookup "hdfs" self.m_config with
  | none => simp [bind, Except.bind]
  | some v =>
    cases h1 : List.lookup "host" v.params <;> cases h2 : List.lookup "filePath" v.params <;>
      cases h3 : List.lookup "port" v.params <;> cases h4 : List.lookup "format" v.params <;>
      simp [h1, h2, h3, h4, bind, Except.bind, pure, Except.pure]

/-- The error `GetLabelConfigs` raises for the first key of the `labels` section
that is missing. -/
theorem GetLabelConfigs_missing (self : DataFrameConfigHelper) :
    (self.m_config.Exists "labels" = false →
      self.GetLabelConfigs = .error (.invalid_argument
        "Labels property is missing. Please specify label information in your BrainScript.")) ∧
    (self.m_config.Exists "labels" = true → sectionHas self.m_config "labels" "dim" = false →
      self.GetLabelConfigs = .error (.invalid_argument
        "Labels must specify dimension: 'dim' property is missing.")) ∧
    (sectionHas self.m_config "labels" "dim" = true → sectionHas self.m_config "labels" "format" = false →
      self.GetLabelConfigs = .error (.invalid_argument
        "Labels must specify format: 'format' property is missing.")) := by
  unfold sectionHas ConfigParameters.Exists DataFrameConfigHelper.GetLabelConfigs
  simp only [ConfigParameters.Exists, ConfigParameters.get, InvalidArgument]
  cases h0 : List.lookup "labels" self.m_config with
  | none => simp [bind, Except.bind]
  | some v =>
    cases h1 : List.lookup "dim" v.params <;> cases h2 : List.lookup "format" v.params <;>
      simp [h1, h2, bind, Except.bind, pure, Except.pure]

/-- The error `GetFeatureConfigs` raises for the first key of the `features` section
that is missing. -/
theorem GetFeatureConfigs_missing (self : DataFrameConfigHelper) :
    (self.m_config.Exists "features" = false →
      self.GetFeatureConfigs = .error (.invalid_argument
        "Features property is missing. Please specify feature information in your BrainScript.")) ∧
    (self.m_config.Exists "features" = true → sectionHas self.m_config "features" "dim" = false →
      self.GetFeatureConfigs = .error (.invalid_argument
        "Features must specify dimension: 'dim' property is missing.")) ∧
    (sectionHas self.m_config "features" "dim" = true → sectionHas self.m_config "features" "format" = false →
      self.GetFeatureConfigs = .error (.invalid_argument
        "Features must specify format: 'format' property is missing.")) := by
  unfold sectionHas ConfigParameters.Exists DataFrameConfigHelper.GetFeatureConfigs
  simp only [ConfigParameters.Exists, ConfigParameters.get, InvalidArgument]
  cases h0 : List.lookup "features" self.m_config with
  | none => simp [bind, Except.bind]
  | some v =>
    cases h1 : List.lookup "dim" v.params <;> cases h2 : List.lookup "format" v.params <;>
      simp [h1, h2, bind, Except.bind, pure, Except.pure]

/-- With its section complete, `GetHdfsConfigs` ends as the conversion of the port does. -/
theorem GetHdfsConfigs_complete (self : DataFrameConfigHelper)
    (h : hdfsComplete self.m_config = true) :
    self.GetHdfsConfigs =
      (stoi (sectionText self.m_config "hdfs" "port")).map (fun port =>
        { self with
          m_host := sectionText self.m_config "hdfs" "host"
          m_filePath := sectionText self.m_config "hdfs" "filePath"
          m_port := port
          m_format := .Parquet }) := by
  unfold hdfsComplete sectionHas ConfigParameters.Exists at h
  unfold DataFrameConfigHelper.GetHdfsConfigs sectionText
  simp only [ConfigParameters.Exists, ConfigParameters.get, InvalidArgument]
  cases h0 : List.lookup "hdfs" self.m_config with
  | none => simp [h0] at h
  | some v =>
    rw [h0] at h
    simp only [Option.isSome_some, Bool.true_and, Bool.and_eq_true] at h
    obtain ⟨⟨⟨h1, h2⟩, h3⟩, h4⟩ := h
    obtain ⟨v1, h1⟩ := Option.isSome_iff_exists.mp h1
    obtain ⟨v2, h2⟩ := Option.isSome_iff_exists.mp h2
    obtain ⟨v3, h3⟩ := Option.isSome_iff_exists.mp h3
    obtain ⟨v4, h4⟩ := Option.isSome_iff_exists.mp h4
    simp only [h1, h2, h3, h4, bind, Except.bind, pure, Except.pure, Option.isSome_some,
      Bool.not_true, Bool.false_eq_true, if_false]
    cases stoi v3.text <;> rfl

/-- With its section complete, `GetLabelConfigs` ends as the conversion of the dimension does. -/
theorem GetLabelConfigs_complete (self : DataFrameConfigHelper)
    (h : labelsComplete self.m_config = true) :
    self.GetLabelConfigs =
      (stoi (sectionText self.m_config "labels" "dim")).map (fun labelDim =>
        { self with m_labelDim := toSizeT labelDim, m_labelElemType := .dense }) := by
  unfold labelsComplete sectionHas ConfigParameters.Exists at h
  unfold DataFrameConfigHelper.GetLabelConfigs sectionText
  simp only [ConfigParameters.Exists, ConfigParameters.get, InvalidArgument]
  cases h0 : List.lookup "labels" self.m_config with
  | none => simp [h0] at h
  | some v =>
    rw [h0] at h
    simp only [Option.isSome_some, Bool.true_and, Bool.and_eq_true] at h
    obtain ⟨h1, h2⟩ := h
    obtain ⟨v1, h1⟩ := Option.isSome_iff_exists.mp h1
    obtain ⟨v2, h2⟩ := Option.isSome_iff_exists.mp h2
    simp only [h1, h2, bind, Except.bind, pure, Except.pure, Option.isSome_some,
      Bool.not_true, Bool.false_eq_true, if_false]
    cases stoi v1.text <;> rfl

/-- The errors of `std::stoi`. -/
theorem stoi_error (str : String) (e : ConfigError) (h : stoi str = .error e) :
    e = .invalid_argument "stoi" ∨ e = .out_of_range "stoi" := by
  unfold stoi at h
  simp only at h
  split_ifs at h <;>
    first
    | exact Or.inl (Except.error.inj h).symm
    | exact Or.inr (Except.error.inj h).symm

/-- With a key of the `hdfs` section missing, `GetHdfsConfigs` raises an
invalid-argument error. -/
theorem GetHdfsConfigs_incomplete (self : DataFrameConfigHelper)
    (h : hdfsComplete self.m_config = false) :
    ∃ msg, self.GetHdfsConfigs = .error (.invalid_argument msg) := by
  obtain ⟨a0, a1, a2, a3, a4⟩ := GetHdfsConfigs_missing self
  unfold hdfsComplete at h
  cases e0 : self.m_config.Exists "hdfs" with
  | false => exact ⟨_, a0 e0⟩
  | true =>
    cases e1 : sectionHas self.m_config "hdfs" "host" with
    | false => exact ⟨_, a1 e0 e1⟩
    | true =>
      cases e2 : sectionHas self.m_config "hdfs" "filePath" with
      | false => exact ⟨_, a2 e1 e2⟩
      | true =>
        cases e3 : sectionHas self.m_config "hdfs" "port" with
        | false => exact ⟨_, a3 e1 e2 e3⟩
        | true =>
          cases e4 : sectionHas self.m_config "hdfs" "format" with
          | false => exact ⟨_, a4 e1 e2 e3 e4⟩
          | true => simp [e0, e1, e2, e3, e4] at h

/-- With a key of the `labels` section missing, `GetLabelConfigs` raises an
invalid-argument error. -/
theorem GetLabelConfigs_incomplete (self : DataFrameConfigHelper)
    (h : labelsComplete self.m_config = false) :
    ∃ msg, self.GetLabelConfigs = .error (.invalid_argument msg) := by
  obtain ⟨a0, a1, a2⟩ := GetLabelConfigs_missing self
  unfold labelsComplete at h
  cases e0 : self.m_config.Exists "labels" with
  | false => exact ⟨_, a0 e0⟩
  | true =>
    cases e1 : sectionHas self.m_config "labels" "dim" with
    | false => exact ⟨_, a1 e0 e1⟩
    | true =>
      cases e2 : sectionHas self.m_config "labels" "format" with
      | false => exact ⟨_, a2 e1 e2⟩
      | true => simp [e0, e1, e2] at h

/-- With a key of the `features` section missing, `GetFeatureConfigs` raises
an invalid-argument error. -/
theorem GetFeatureConfigs_incomplete (self : DataFrameConfigHelper)
    (h : featuresComplete self.m_config = false) :
    ∃ msg, self.GetFeatureConfigs = .error (.invalid_argument msg) := by
  obtain ⟨a0, a1, a2⟩ := GetFeatureConfigs_missing self
  unfold featuresComplete at h
  cases e0 : self.m_config.Exists "features" with
  | false => exact ⟨_, a0 e0⟩
  | true =>
    cases e1 : sectionHas self.m_config "features" "dim" with
    | false => exact ⟨_, a1 e0 e1⟩
    | true =>
      cases e2 : sectionHas self.m_config "features" "format" with
      | false => exact ⟨_, a2 e1 e2⟩
      | true => simp [e0, e1, e2] at h

/-- The constructor fails as `GetHdfsConfigs` does. -/
theorem new_of_hdfs_error (config : ConfigParameters) (e : ConfigError)
    (h : DataFrameConfigHelper.GetHdfsConfigs
      { m_config := config, m_source := .HDFS, m_host := "", m_filePath := "", m_port := 0,
        m_format := .Parquet, m_labelDim := 0, m_labelElemType := .dense, m_featureDim := 0,
        m_featureElemType := .dense } = .error e) :
    DataFrameConfigHelper.new config = .error e := by
  simp [DataFrameConfigHelper.new, h, bind, Except.bind]

/-- With the `hdfs` section complete and its port converted, the constructor
fails as `GetLabelConfigs` does. -/
theorem new_of_labels_error (config : ConfigParameters) (port : Int) (e : ConfigError)
    (hc : hdfsComplete config = true) (hp : stoi (sectionText config "hdfs" "port") = .ok port)
    (h : DataFrameConfigHelper.GetLabelConfigs
        { m_config := config, m_source := .HDFS, m_host := sectionText config "hdfs" "host",
          m_filePath := sectionText config "hdfs" "filePath", m_port := port,
          m_format := .Parquet, m_labelDim := 0, m_labelElemType := .dense, m_featureDim := 0,
          m_featureElemType := .dense } = .error e) :
    DataFrameConfigHelper.new config = .error e := by
  have h1 := GetHdfsConfigs_complete
      { m_config := config, m_source := .HDFS, m_host := "", m_filePath := "", m_port := 0,
        m_format := .Parquet, m_labelDim := 0, m_labelElemType := .dense, m_featureDim := 0,
        m_featureElemType := .dense } hc
  simp only at h1
  rw [hp] at h1
  simp [DataFrameConfigHelper.new, h1, h, bind, Except.bind, Except.map]

/-- With the `hdfs` and `labels` sections complete and their numbers
converted, the constructor ends as `GetFeatureConfigs` does. -/
theorem new_of_features (config : ConfigParameters) (port labelDim : Int)
    (hc : hdfsComplete config = true) (hp : stoi (sectionText config "hdfs" "port") = .ok port)
    (hl : labelsComplete config = true)
    (hd : stoi (sectionText config "labels" "dim") = .ok labelDim) :
    DataFrameConfigHelper.new config =
      DataFrameConfigHelper.GetFeatureConfigs
        { m_config := config, m_source := .HDFS, m_host := sectionText config "hdfs" "host",
          m_filePath := sectionText config "hdfs" "filePath", m_port := port,
          m_format := .Parquet, m_labelDim := toSizeT labelDim, m_labelElemType := .dense,
          m_featureDim := 0, m_featureElemType := .dense } := by
  have h1 := GetHdfsConfigs_complete
      { m_config := config, m_source := .HDFS, m_host := "", m_filePath := "", m_port := 0,
        m_format := .Parquet, m_labelDim := 0, m_labelElemType := .dense, m_featureDim := 0,
        m_featureElemType := .dense } hc
  simp only at h1
  rw [hp] at h1
  have h2 := GetLabelConfigs_complete
        { m_config := config, m_source := .HDFS, m_host := sectionText config "hdfs" "host",
          m_filePath := sectionText config "hdfs" "filePath", m_port := port,
          m_format := .Parquet, m_labelDim := 0, m_labelElemType := .dense, m_featureDim := 0,
          m_featureElemType := .dense } hl
  simp only at h2
  rw [hd] at h2
  simp [DataFrameConfigHelper.new, h1, h2, bind, Except.bind, Except.map]

/-- The constructor, key by key. -/
theorem DataFrameConfigHelper_new_cases (config : ConfigParameters) :
    (config.Exists "hdfs" = false →
      DataFrameConfigHelper.new config = .error (.invalid_argument
        "No HDFS configurations were specified. Please specify HDFS configuration in your BrainScript.")) ∧
    (config.Exists "hdfs" = true → sectionHas config "hdfs" "host" = false →
      DataFrameConfigHelper.new config = .error (.invalid_argument
        "HDFS configurations must specify host: 'host' property is missing.")) ∧
    (sectionHas config "hdfs" "host" = true → sectionHas config "hdfs" "filePath" = false →
      DataFrameConfigHelper.new config = .error (.invalid_argument
        "HDFS configurations must specify file path: 'filePath' property is missing.")) ∧
    (sectionHas config "hdfs" "host" = true → sectionHas config "hdfs" "filePath" = true →
      sectionHas config "hdfs" "port" = false →
      DataFrameConfigHelper.new config = .error (.invalid_argument
        "HDFS configurations must specify port number: 'port' property is missing.")) ∧
    (sectionHas config "hdfs" "host" = true → sectionHas config "hdfs" "filePath" = true →
      sectionHas config "hdfs" "port" = true → sectionHas config "hdfs" "format" = false →
      DataFrameConfigHelper.new config = .error (.invalid_argument
        "HDFS configurations must specify file format: 'format' property is missing.")) ∧
    (hdfsComplete config = true →
      ∀ e, stoi (sectionText config "hdfs" "port") = .error e → DataFrameConfigHelper.new config = .error e) ∧
    (hdfsComplete config = true → (∃ port, stoi (sectionText config "hdfs" "port") = .ok port) →
      (config.Exists "labels" = false →
        DataFrameConfigHelper.new config = .error (.invalid_argument
          "Labels property is missing. Please specify label information in your BrainScript.")) ∧
      (config.Exists "labels" = true → sectionHas config "labels" "dim" = false →
        DataFrameConfigHelper.new config = .error (.invalid_argument
          "Labels must specify dimension: 'dim' property is missing.")) ∧
      (sectionHas config "labels" "dim" = true → sectionHas config "labels" "format" = false →
        DataFrameConfigHelper.new config = .error (.invalid_argument
          "Labels must specify format: 'format' property is missing."))) ∧
    (hdfsComplete config = true → (∃ port, stoi (sectionText config "hdfs" "port") = .ok port) →
      labelsComplete config = true →
      ∀ e, stoi (sectionText config "labels" "dim") = .error e → DataFrameConfigHelper.new config = .error e) ∧
    (hdfsComplete config = true → (∃ port, stoi (sectionText config "hdfs" "port") = .ok port) →
      labelsComplete config = true →
      (∃ labelDim, stoi (sectionText config "labels" "dim") = .ok labelDim) →
      (config.Exists "features" = false →
        DataFrameConfigHelper.new config = .error (.invalid_argument
          "Features property is missing. Please specify feature information in your BrainScript.")) ∧
      (config.Exists "features" = true → sectionHas config "features" "dim" = false →
        DataFrameConfigHelper.new config = .error (.invalid_argument
          "Features must specify dimension: 'dim' property is missing.")) ∧
      (sectionHas config "features" "dim" = true → sectionHas config "features" "format" = false →
        DataFrameConfigHelper.new config = .error (.invalid_argument
          "Features must specify format: 'format' property is missing."))) := by
  obtain ⟨a0, a1, a2, a3, a4⟩ := GetHdfsConfigs_missing
      { m_config := config, m_source := .HDFS, m_host := "", m_filePath := "", m_port := 0,
        m_format := .Parquet, m_labelDim := 0, m_labelElemType := .dense, m_featureDim := 0,
        m_featureElemType := .dense }
  refine ⟨fun h => new_of_hdfs_error config _ (a0 h),
    fun h h1 => new_of_hdfs_error config _ (a1 h h1),
    fun h1 h2 => new_of_hdfs_error config _ (a2 h1 h2),
    fun h1 h2 h3 => new_of_hdfs_error config _ (a3 h1 h2 h3),
    fun h1 h2 h3 h4 => new_of_hdfs_error config _ (a4 h1 h2 h3 h4), ?_, ?_, ?_, ?_⟩
  · intro hc e he
    apply new_of_hdfs_error
    rw [GetHdfsConfigs_complete _ hc]
    simp only
    rw [he]
    rfl
  · rintro hc ⟨port, hp⟩
    obtain ⟨b0, b1, b2⟩ := GetLabelConfigs_missing
        { m_config := config, m_source := .HDFS, m_host := sectionText config "hdfs" "host",
          m_filePath := sectionText config "hdfs" "filePath", m_port := port,
          m_format := .Parquet, m_labelDim := 0, m_labelElemType := .dense, m_featureDim := 0,
          m_featureElemType := .dense }
    exact ⟨fun h => new_of_labels_error config port _ hc hp (b0 h),
      fun h h1 => new_of_labels_error config port _ hc hp (b1 h h1),
      fun h1 h2 => new_of_labels_error config port _ hc hp (b2 h1 h2)⟩
  · rintro hc ⟨port, hp⟩ hl e he
    apply new_of_labels_error config port e hc hp
    rw [GetLabelConfigs_complete _ hl]
    simp only
    rw [he]
    rfl
  · rintro hc ⟨port, hp⟩ hl ⟨labelDim, hd⟩
    rw [new_of_features config port labelDim hc hp hl hd]
    exact GetFeatureConfigs_missing
        { m_config := config, m_source := .HDFS, m_host := sectionText config "hdfs" "host",
          m_filePath := sectionText config "hdfs" "filePath", m_port := port,
          m_format := .Parquet, m_labelDim := toSizeT labelDim, m_labelElemType := .dense,
          m_featureDim := 0, m_featureElemType := .dense }

/-- C8, as the code has it. For every configuration in which a required key
is missing, the constructor fails and leaves no helper; the error is an
invalid-argument error or the out-of-range error of `std::stoi`. The keys
are checked in the order hdfs, hdfs.host, hdfs.filePath, hdfs.port,
hdfs.format, labels, labels.dim, labels.format, features, features.dim,
features.format, and the error is the invalid-argument error of the first
missing key, with two exceptions. When the hdfs keys are all there and the
conversion of `hdfs.port` fails, the error is the one of the conversion,
whatever is missing after. When the hdfs and labels keys are all there, the
port converts and the conversion of `labels.dim` fails, the error is the one
of that conversion. -/
theorem DataFrameConfigHelper_missing_key (config : ConfigParameters)
    (hmiss : hdfsComplete config = false ∨ labelsComplete config = false ∨
      featuresComplete config = false) :
    (∃ e, DataFrameConfigHelper.new config = .error e ∧
      ((∃ msg, e = .invalid_argument msg) ∨ e = .out_of_range "stoi")) ∧
    (config.Exists "hdfs" = false →
      DataFrameConfigHelper.new config = .error (.invalid_argument
        "No HDFS configurations were specified. Please specify HDFS configuration in your BrainScript.")) ∧
    (config.Exists "hdfs" = true → sectionHas config "hdfs" "host" = false →
      DataFrameConfigHelper.new config = .error (.invalid_argument
        "HDFS configurations must specify host: 'host' property is missing.")) ∧
    (sectionHas config "hdfs" "host" = true → sectionHas config "hdfs" "filePath" = false →
      DataFrameConfigHelper.new config = .error (.invalid_argument
        "HDFS configurations must specify file path: 'filePath' property is missing.")) ∧
    (sectionHas config "hdfs" "host" = true → sectionHas config "hdfs" "filePath" = true →
      sectionHas config "hdfs" "port" = false →
      DataFrameConfigHelper.new config = .error (.invalid_argument
        "HDFS configurations must specify port number: 'port' property is missing.")) ∧
    (sectionHas config "hdfs" "host" = true → sectionHas config "hdfs" "filePath" = true →
      sectionHas config "hdfs" "port" = true → sectionHas config "hdfs" "format" = false →
      DataFrameConfigHelper.new config = .error (.invalid_argument
        "HDFS configurations must specify file format: 'format' property is missing.")) ∧
    (hdfsComplete config = true →
      ∀ e, stoi (sectionText config "hdfs" "port") = .error e → DataFrameConfigHelper.new config = .error e) ∧
    (hdfsComplete config = true → (∃ port, stoi (sectionText config "hdfs" "port") = .ok port) →
      (config.Exists "labels" = false →
        DataFrameConfigHelper.new config = .error (.invalid_argument
          "Labels property is missing. Please specify label information in your BrainScript.")) ∧
      (config.Exists "labels" = true → sectionHas config "labels" "dim" = false →
        DataFrameConfigHelper.new config = .error (.invalid_argument
          "Labels must specify dimension: 'dim' property is missing.")) ∧
      (sectionHas config "labels" "dim" = true → sectionHas config "labels" "format" = false →
        DataFrameConfigHelper.new config = .error (.invalid_argument
          "Labels must specify format: 'format' property is missing."))) ∧
    (hdfsComplete config = true → (∃ port, stoi (sectionText config "hdfs" "port") = .ok port) →
      labelsComplete config = true →
      ∀ e, stoi (sectionText config "labels" "dim") = .error e → DataFrameConfigHelper.new config = .error e) ∧
    (hdfsComplete config = true → (∃ port, stoi (sectionText config "hdfs" "port") = .ok port) →
      labelsComplete config = true →
      (∃ labelDim, stoi (sectionText config "labels" "dim") = .ok labelDim) →
      (config.Exists "features" = false →
        DataFrameConfigHelper.new config = .error (.invalid_argument
          "Features property is missing. Please specify feature information in your BrainScript.")) ∧
      (config.Exists "features" = true → sectionHas config "features" "dim" = false →
        DataFrameConfigHelper.new config = .error (.invalid_argument
          "Features must specify dimension: 'dim' property is missing.")) ∧
      (sectionHas config "features" "dim" = true → sectionHas config "features" "format" = false →
        DataFrameConfigHelper.new config = .error (.invalid_argument
          "Features must specify format: 'format' property is missing."))) := by
  refine ⟨?_, DataFrameConfigHelper_new_cases config⟩
  have hstoi : ∀ str e, stoi str = .error e →
      (∃ msg, e = ConfigError.invalid_argument msg) ∨ e = .out_of_range "stoi" := by
    intro str e he
    rcases stoi_error str e he with h | h
    · exact Or.inl ⟨_, h⟩
    · exact Or.inr h
  cases hc : hdfsComplete config with
  | false =>
    obtain ⟨msg, heq⟩ := GetHdfsConfigs_incomplete
      { m_config := config, m_source := .HDFS, m_host := "", m_filePath := "", m_port := 0,
        m_format := .Parquet, m_labelDim := 0, m_labelElemType := .dense, m_featureDim := 0,
        m_featureElemType := .dense } hc
    exact ⟨_, new_of_hdfs_error config _ heq, Or.inl ⟨msg, rfl⟩⟩
  | true =>
    cases hp : stoi (sectionText config "hdfs" "port") with
    | error e =>
      refine ⟨e, ?_, hstoi _ e hp⟩
      apply new_of_hdfs_error
      rw [GetHdfsConfigs_complete _ hc]
      simp only
      rw [hp]
      rfl
    | ok port =>
      cases hl : labelsComplete config with
      | false =>
        obtain ⟨msg, heq⟩ := GetLabelConfigs_incomplete
          { m_config := config, m_source := .HDFS, m_host := sectionText config "hdfs" "host",
            m_filePath := sectionText config "hdfs" "filePath", m_port := port,
            m_format := .Parquet, m_labelDim := 0, m_labelElemType := .dense, m_featureDim := 0,
            m_featureElemType := .dense } hl
        exact ⟨_, new_of_labels_error config port _ hc hp heq, Or.inl ⟨msg, rfl⟩⟩
      | true =>
        cases hd : stoi (sectionText config "labels" "dim") with
        | error e =>
          refine ⟨e, ?_, hstoi _ e hd⟩
          apply new_of_labels_error config port e hc hp
          rw [GetLabelConfigs_complete _ hl]
          simp only
          rw [hd]
          rfl
        | ok labelDim =>
          have hf : featuresComplete config = false := by
            rcases hmiss with h0 | h0 | h0
            · rw [hc] at h0; exact absurd h0 (by decide)
            · rw [hl] at h0; exact absurd h0 (by decide)
            · exact h0
          obtain ⟨msg, heq⟩ := GetFeatureConfigs_incomplete
            { m_config := config, m_source := .HDFS, m_host := sectionText config "hdfs" "host",
              m_filePath := sectionText config "hdfs" "filePath", m_port := port,
              m_format := .Parquet, m_labelDim := toSizeT labelDim, m_labelElemType := .dense,
              m_featureDim := 0, m_featureElemType := .dense } hf
          rw [← new_of_features config port labelDim hc hp hl hd] at heq
          exact ⟨_, heq, Or.inl ⟨msg, rfl⟩⟩

/-- C8, as the code has it, on two configurations: `noFeaturesConfig` ends in
the message of the missing `features` key, and `bigPortConfig`, with no
`labels` key, in the error of the conversion of the port. -/
theorem DataFrameConfigHelper_missing_key_witness :
    DataFrameConfigHelper.new noFeaturesConfig = .error (.invalid_argument
        "Features property is missing. Please specify feature information in your BrainScript.") ∧
      DataFrameConfigHelper.new bigPortConfig = .error (.out_of_range "stoi") :=
  ⟨((DataFrameConfigHelper_missing_key noFeaturesConfig (Or.inr (Or.inr rfl))).2.2.2.2.2.2.2.2.2
      rfl ⟨9000, rfl⟩ rfl ⟨10, rfl⟩).1 rfl,
    (DataFrameConfigHelper_missing_key bigPortConfig (Or.inr (Or.inl rfl))).2.2.2.2.2.2.1
      rfl _ rfl⟩

end DF
end CNTK
